import Mathlib

/-
  Verification of the OLC market-analysis engine.

  Shallow embedding of the stage-classification service (WeinsteinService,
  src/unnamed/part_008) and of the CANSLIM scoring services: the
  Alpha-Vantage-aware variant (CANSLIMService.calculateScore,
  src/unnamed/part_009), the Finnhub-aware variant (src/unnamed/part_010)
  and their shared factor scorers (identical code also in
  src/unnamed/part_011).

  Modelling conventions, used consistently below:
  * JS numbers are rationals (ℚ).  A bar field that may be NaN or absent is
    an `Option ℚ` (`none` models NaN/undefined; `isNaN x` becomes
    `x = none`).  After the normalizing repair all fields are present, so
    normalized bars carry plain `ℚ` fields.
  * A timestamp is `Option (Option ℚ)`: the outer layer models JS
    truthiness of the string (`none` = absent/empty), the inner layer the
    result of `new Date(t).getTime()` (`none` = unparseable, i.e. NaN).
  * `Array.prototype.sort` with a comparator is a stable sort (ES2019);
    it is embedded as a stable insertion sort on the comparator.
  * `Math.round x` is `⌊x + 1/2⌋` (half toward +∞), `Math.ceil` is `⌈·⌉`.
  * The source compares `Math.sqrt(variance) * 100` only against the
    constant thresholds 3 and 1.5; since `Real.sqrt` is monotone and both
    sides are nonnegative, the embedding keeps `variance * 100^2` and
    compares against the squared thresholds 9 and 2.25, which is
    observationally identical (only the bucket is ever used or returned).
-/

/-- Trailing window `xs.slice(-Math.min(k, xs.length))`: the last
`min k xs.length` elements. -/
def lastN (k : ℕ) (xs : List α) : List α :=
  xs.drop (xs.length - min k xs.length)

/-- `Math.max(...xs)` for a nonempty list of (non-NaN) numbers;
the empty case (−∞ in JS) is unreachable at every call site. -/
def maxList : List ℚ → ℚ
  | [] => 0
  | a :: rest => rest.foldl max a

/-- `Math.round`: round half toward positive infinity. -/
def jsRound (q : ℚ) : ℚ := (⌊q + 1/2⌋ : ℤ)

/-- `Math.ceil`. -/
def jsCeil (q : ℚ) : ℚ := (⌈q⌉ : ℤ)

/-- Left-pad a digit string with zeros to width `w`. -/
def padZeros (w : ℕ) (s : String) : String :=
  if s.length < w then String.mk (List.replicate (w - s.length) '0') ++ s else s

/-- `Number.prototype.toFixed(digits)`: format `|q|` rounded to `digits`
decimal places (ties toward the larger magnitude), then re-attach the sign,
as specified for JS `toFixed`. -/
def toFixedDigits (digits : ℕ) (q : ℚ) : String :=
  let p : ℕ := 10 ^ digits
  let n : ℕ := (⌊|q| * p + 1/2⌋).toNat
  (if q < 0 then "-" else "") ++ toString (n / p) ++ "." ++ padZeros digits (toString (n % p))

/-- `toFixed(1)`. -/
def toFixed1 (q : ℚ) : String := toFixedDigits 1 q

/-- `toFixed(2)`. -/
def toFixed2 (q : ℚ) : String := toFixedDigits 2 q

/-- Stable insert for `stableSortBy`: `a` is placed before the first
element that does not compare strictly smaller, preserving the original
order of elements that compare equal. -/
def stableInsert (cmp : α → α → ℚ) (a : α) : List α → List α
  | [] => [a]
  | b :: rest => if cmp a b ≤ 0 then a :: b :: rest else b :: stableInsert cmp a rest

/-- Stable sort by a JS-style numeric comparator (models
`Array.prototype.sort`, which is stable). -/
def stableSortBy (cmp : α → α → ℚ) : List α → List α
  | [] => []
  | a :: rest => stableInsert cmp a (stableSortBy cmp rest)

/-- A raw input bar (the `Bar` interface of alpacaService): every numeric
field may be NaN/missing (`none`), the timestamp may be absent or
unparseable. -/
structure RawBar where
  o : Option ℚ
  h : Option ℚ
  l : Option ℚ
  c : Option ℚ
  v : Option ℚ
  t : Option (Option ℚ)
deriving DecidableEq, Repr

/-- A bar after the CANSLIM repair step: all numeric fields present. -/
structure NBar where
  o : ℚ
  h : ℚ
  l : ℚ
  c : ℚ
  v : ℚ
  t : Option (Option ℚ)
deriving DecidableEq, Repr

/-- Last element of a list, with a fallback for the empty list (the role
`xs[xs.length - 1]` plays in the source; every use below is guarded by the
same length checks the source performs, so the fallback is never the value
actually read). -/
def endD (l : List α) (d : α) : α :=
  match l with
  | [] => d
  | [a] => a
  | _ :: b :: t => endD (b :: t) d

/-- Placeholder bar for the total list accessors (`List.headD`/`endD`). -/
def dBar : NBar := ⟨0, 0, 0, 0, 0, none⟩

/-- Placeholder raw bar, in the same role as `dBar`. -/
def dRaw : RawBar := ⟨none, none, none, none, none, none⟩

namespace Weinstein

/-- The close of a valid (filtered) bar; the filter guarantees `c` is
present, so the default is never read. -/
def cval (b : RawBar) : ℚ := b.c.getD 0

/-- The filter predicate of `analyzeStage`:
`bar && !isNaN(bar.c) && bar.c > 0`. -/
def wvalid (b : RawBar) : Bool :=
  match b.c with
  | some q => 0 < q
  | none => false

/-- `b.c > b.o` under JS NaN semantics: false when either side is NaN. -/
def upDay (b : RawBar) : Bool :=
  match b.c, b.o with
  | some c, some o => o < c
  | _, _ => false

/-- `b.c < b.o` under JS NaN semantics. -/
def downDay (b : RawBar) : Bool :=
  match b.c, b.o with
  | some c, some o => c < o
  | _, _ => false

/-- `WeinsteinService.calculate30WeekMA`. -/
def calculate30WeekMA (bars : List RawBar) : ℚ :=
  if bars.length < 10 then 0
  else
    let relevantBars := lastN 150 bars
    ((relevantBars.map cval).sum) / relevantBars.length

/-- JS simple returns of `calculateVolatility`: `returns[0] = 0`,
`returns[i] = (c i - c (i-1)) / c (i-1)`. -/
def returnsOf : List ℚ → List ℚ
  | [] => []
  | c :: rest => 0 :: List.zipWith (fun prev cur => (cur - prev) / prev) (c :: rest) rest

/-- `WeinsteinService.calculateVolatility`, kept as the square of the
percentage volatility (see the header note): the source value is
`Math.sqrt(variance) * 100` and is only ever compared to 3 and 1.5, so the
embedding returns `variance * 10000` and compares to 9 and 2.25. -/
def calculateVolatilitySq (bars : List RawBar) : ℚ :=
  if bars.length < 5 then 0
  else
    let recentBars := lastN 20 bars
    let rets := returnsOf (recentBars.map cval)
    let mean := rets.sum / (rets.length : ℚ)
    let variance := ((rets.map (fun r => (r - mean) ^ 2)).sum) / (rets.length : ℚ)
    variance * 10000

/-- `WeinsteinService.analyzeTrend`. -/
def analyzeTrend (bars : List RawBar) : ℚ :=
  if bars.length < 10 then 0
  else
    let startPrice := cval (bars.headD dRaw)
    let endPrice := cval (endD bars dRaw)
    if startPrice = 0 then 0
    else (endPrice - startPrice) / startPrice * 100

/-- `WeinsteinService.getTrendStrength`. -/
def getTrendStrength (trend : ℚ) : String :=
  if 10 < |trend| then "Strong"
  else if 5 < |trend| then "Moderate"
  else "Weak"

/-- `Math.max(...recentBars.map(b => b.h))` in `determineStage`: if any
high is NaN the JS maximum is NaN and the subsequent `>=` comparison is
false, which `none` models. -/
def maxHigh (bars : List RawBar) : Option ℚ :=
  if bars.all (fun b => b.h.isSome) then some (maxList (bars.map (fun b => b.h.getD 0)))
  else none

/-- `WeinsteinService.determineStage`.  The source performs the three
checks in sequence, falling through on failure of an inner condition,
which flattens into this if-chain. -/
def determineStage (currentPrice : ℚ) (priceVsMA trend : ℚ) (volatility : String)
    (recentBars : List RawBar) : ℕ :=
  let upDays := (recentBars.filter upDay).length
  let downDays := (recentBars.filter downDay).length
  let isNearHigh : Bool :=
    match maxHigh recentBars with
    | some recentHigh => decide (recentHigh * 0.95 ≤ currentPrice)
    | none => false
  if 0 < priceVsMA ∧ 2 < trend ∧ (downDays : ℚ) * 1.2 < upDays then 2
  else if priceVsMA < 0 ∧ trend < -2 ∧ (upDays : ℚ) * 1.2 < downDays then 4
  else if volatility = "High" ∧ -5 < priceVsMA ∧ isNearHigh ∧ trend < 3 ∧ -3 < trend then 3
  else 1

/-- `WeinsteinService.getStageName`. -/
def getStageName (stage : ℕ) : String :=
  if stage = 1 then "Stage 1: Accumulation"
  else if stage = 2 then "Stage 2: Advancing"
  else if stage = 3 then "Stage 3: Distribution"
  else if stage = 4 then "Stage 4: Declining"
  else "Unknown Stage"

/-- `WeinsteinService.getStageDescription`. -/
def getStageDescription (stage : ℕ) (priceVsMA : ℚ) (trendStrength : String)
    (barsAvailable : ℕ) : String :=
  let maLabel := if 150 ≤ barsAvailable then "30-week MA" else toString barsAvailable ++ "-day MA"
  let dataNote := if barsAvailable < 150 then " (Based on " ++ toString barsAvailable ++ " days of data)" else ""
  if stage = 1 then
    "Base building phase. Price is consolidating with " ++ trendStrength.toLower ++
      " trend. Look for accumulation patterns before potential breakout." ++ dataNote
  else if stage = 2 then
    "Uptrend phase. Price is " ++ toFixed1 priceVsMA ++ "% above " ++ maLabel ++ " with " ++
      trendStrength.toLower ++ " momentum. This is typically the best time to buy." ++ dataNote
  else if stage = 3 then
    "Distribution phase. High volatility and topping pattern detected. Price may be near highs but showing weakening momentum. Consider taking profits." ++ dataNote
  else if stage = 4 then
    "Downtrend phase. Price is " ++ toFixed1 |priceVsMA| ++ "% below " ++ maLabel ++ " with " ++
      trendStrength.toLower ++ " downward momentum. Avoid buying, consider shorting or waiting." ++ dataNote
  else "Unable to determine stage."

/-- The result record of `analyzeStage` (interface `WeinsteinAnalysis`). -/
structure WeinsteinAnalysis where
  stage : ℕ
  stageName : String
  description : String
  thirtyWeekMA : ℚ
  currentPrice : ℚ
  priceVsMA : ℚ
  trendStrength : String
  volatility : String
deriving DecidableEq, Repr

/-- Comparator of the timestamp sort in `analyzeStage`:
`isNaN(timeA) || isNaN(timeB) ? 0 : timeA - timeB`. -/
def wcmp (a b : RawBar) : ℚ :=
  match a.t, b.t with
  | some (some x), some (some y) => x - y
  | _, _ => 0

/-- `WeinsteinService.analyzeStage`. -/
def analyzeStage (currentPrice : ℚ) (historicalBars : List RawBar) : WeinsteinAnalysis :=
  if historicalBars.isEmpty then
    ⟨1, "Insufficient Data", "No historical data available for stage analysis",
      0, currentPrice, 0, "Weak", "Low"⟩
  else
    let validBars := historicalBars.filter wvalid
    if validBars.isEmpty then
      ⟨1, "Insufficient Data", "No valid price data available for stage analysis",
        0, currentPrice, 0, "Weak", "Low"⟩
    else if validBars.length < 5 then
      let avgPrice := (validBars.map cval).sum / validBars.length
      let priceVsMA := if 0 < avgPrice then (currentPrice - avgPrice) / avgPrice * 100 else 0
      let isAbove := 0 < priceVsMA
      ⟨if isAbove then 2 else 4,
        if isAbove then "Stage 2: Advancing (Limited Data)" else "Stage 4: Declining (Limited Data)",
        "Limited data analysis (" ++ toString validBars.length ++
          " day(s) available). Price is " ++ (if isAbove then "above" else "below") ++
          " average by " ++ toFixed1 |priceVsMA| ++
          "%. More data needed for accurate stage determination.",
        avgPrice, currentPrice, priceVsMA,
        if 5 < |priceVsMA| then "Moderate" else "Weak",
        "Low"⟩
    else
      let sortedBars :=
        if validBars.all (fun b => b.t.isSome) then stableSortBy wcmp validBars else validBars
      let thirtyWeekMA := calculate30WeekMA sortedBars
      let priceVsMA := if 0 < thirtyWeekMA then (currentPrice - thirtyWeekMA) / thirtyWeekMA * 100 else 0
      let volSq := calculateVolatilitySq sortedBars
      let trendBars := lastN 30 sortedBars
      let trend := analyzeTrend trendBars
      let trendStrength := getTrendStrength trend
      let volatilityLevel := if 9 < volSq then "High" else if 9/4 < volSq then "Medium" else "Low"
      let stage := determineStage currentPrice priceVsMA trend volatilityLevel trendBars
      let dataQuality := if 150 ≤ sortedBars.length then "" else " (Estimated)"
      ⟨stage, getStageName stage ++ dataQuality,
        getStageDescription stage priceVsMA trendStrength sortedBars.length,
        thirtyWeekMA, currentPrice, priceVsMA, trendStrength, volatilityLevel⟩

end Weinstein

namespace Canslim

/-- One factor result: `{ score, maxScore, description }`. -/
structure FactorScore where
  score : ℚ
  maxScore : ℚ
  description : String
deriving DecidableEq, Repr

/-- The seven factor results, in the order of the `scores` object literal
(c, a, n, s, l, i, m), which is also the order `Object.values` yields. -/
structure Scores where
  c : FactorScore
  a : FactorScore
  n : FactorScore
  s : FactorScore
  l : FactorScore
  i : FactorScore
  m : FactorScore
deriving DecidableEq, Repr

/-- The result record (`CANSLIMScore` interface); the grade is one of the
string literals A/B/C/D/F. -/
structure CANSLIMScore where
  overallGrade : String
  scores : Scores
  totalScore : ℚ
  maxTotalScore : ℚ
deriving DecidableEq, Repr

/-- The close-validity test of the normalizing filter:
`!isNaN(bar.c) && bar.c > 0` (a `none` close models NaN/missing). -/
def validClose (b : RawBar) : Bool :=
  match b.c with
  | some q => 0 < q
  | none => false

/-- The in-place repair the filter callback performs on a bar whose close
passed `validClose`: missing open/high/low become the close, missing or
negative volume becomes 0.  This is the post-state of the caller's record. -/
def repairRaw (b : RawBar) : RawBar :=
  { b with
    o := if b.o = none then b.c else b.o
    h := if b.h = none then b.c else b.h
    l := if b.l = none then b.c else b.l
    v := match b.v with
         | none => some 0
         | some v => if v < 0 then some 0 else b.v }

/-- `historicalBars.filter(bar => { ...repair...; return ok })`, keeping
both observable effects of the loop: the first component is the array of
caller records after the call (valid bars repaired in place, the rest
untouched), the second the `validBars` array the filter returns. -/
def filterRepair : List RawBar → List RawBar × List RawBar
  | [] => ([], [])
  | b :: rest =>
    let r := filterRepair rest
    if validClose b then (repairRaw b :: r.1, repairRaw b :: r.2)
    else (b :: r.1, r.2)

/-- View of a repaired bar with all fields present (after `repairRaw` on a
`validClose` bar, every numeric field is `some`). -/
def toBar (b : RawBar) : NBar :=
  ⟨b.o.getD 0, b.h.getD 0, b.l.getD 0, b.c.getD 0, b.v.getD 0, b.t⟩

/-- Comparator of the timestamp sort in `calculateScore`: compare parsed
times when both parse, otherwise 0. -/
def barCmp (a b : NBar) : ℚ :=
  match a.t, b.t with
  | some (some x), some (some y) => x - y
  | _, _ => 0

/-- The `sortedBars` both scoring drivers build: repaired valid bars,
sorted by timestamp only when every bar carries one. -/
def normalizedSortedBars (historicalBars : List RawBar) : List NBar :=
  let validBars := ((filterRepair historicalBars).2).map toBar
  if validBars.all (fun b => b.t.isSome) then stableSortBy barCmp validBars else validBars

/-- `CANSLIMService.getDefaultScore`. -/
def getDefaultScore (reason : String) : CANSLIMScore :=
  { overallGrade := "F"
    scores :=
      ⟨⟨0, 15, reason⟩, ⟨0, 15, reason⟩, ⟨0, 15, reason⟩,
       ⟨0, 10, reason⟩, ⟨0, 10, reason⟩, ⟨0, 10, reason⟩, ⟨0, 10, reason⟩⟩
    totalScore := 0
    maxTotalScore := 85 }

/-- The grade thresholds both drivers apply to the percentage. -/
def gradeFor (percentage : ℚ) : String :=
  if 85 ≤ percentage then "A"
  else if 70 ≤ percentage then "B"
  else if 55 ≤ percentage then "C"
  else if 40 ≤ percentage then "D"
  else "F"

/-- The tail both drivers share: total and max via `reduce` over the seven
factors in object order, percentage, grade. -/
def mkScore (scs : Scores) : CANSLIMScore :=
  let totalScore := scs.c.score + scs.a.score + scs.n.score + scs.s.score +
    scs.l.score + scs.i.score + scs.m.score
  let maxTotalScore := scs.c.maxScore + scs.a.maxScore + scs.n.maxScore + scs.s.maxScore +
    scs.l.maxScore + scs.i.maxScore + scs.m.maxScore
  let percentage := totalScore / maxTotalScore * 100
  { overallGrade := gradeFor percentage
    scores := scs
    totalScore := totalScore
    maxTotalScore := maxTotalScore }

/-- `CANSLIMService.scoreCurrentQuarterlyEarnings` (shared by
part_009/part_010/part_011): the ~60-bar price-momentum proxy for factor C. -/
def scoreCurrentQuarterlyEarnings (bars : List NBar) : FactorScore :=
  match lastN 60 bars with
  | [] => ⟨0, 15, "Insufficient data for quarterly analysis"⟩
  | [b] =>
    -- JS: priceChange = c > o ? (c-o)/o*100 : 0, then tested > 0; for
    -- o = 0 < c the division is +Infinity, which tests positive.
    let priceChangePos : Bool :=
      if b.o < b.c then (if b.o = 0 then true else decide (0 < (b.c - b.o) / b.o * 100))
      else false
    ⟨if priceChangePos then 5 else 2, 15,
      "Single day data: " ++ (if priceChangePos then "positive" else "negative") ++ " price movement"⟩
  | bs@(b0 :: _ :: _) =>
    let startPrice := b0.c
    let endPrice := (endD bs dBar).c
    if startPrice = 0 then ⟨0, 15, "Invalid price data"⟩
    else
      let changePercent := (endPrice - startPrice) / startPrice * 100
      let period :=
        if 60 ≤ bs.length then "quarterly"
        else if 20 ≤ bs.length then toString (bs.length / 5) ++ "-week"
        else toString bs.length ++ "-day"
      if 25 ≤ changePercent then ⟨15, 15, "Strong " ++ period ++ " momentum: +" ++ toFixed1 changePercent ++ "%"⟩
      else if 15 ≤ changePercent then ⟨12, 15, "Good " ++ period ++ " momentum: +" ++ toFixed1 changePercent ++ "%"⟩
      else if 5 ≤ changePercent then ⟨8, 15, "Moderate " ++ period ++ " momentum: +" ++ toFixed1 changePercent ++ "%"⟩
      else if 0 ≤ changePercent then ⟨5, 15, "Weak " ++ period ++ " momentum: +" ++ toFixed1 changePercent ++ "%"⟩
      else ⟨2, 15, "Negative " ++ period ++ " momentum: " ++ toFixed1 changePercent ++ "%"⟩

/-- `CANSLIMService.scoreAnnualEarningsGrowth` (shared): the ~252-bar
price-appreciation proxy for factor A. -/
def scoreAnnualEarningsGrowth (bars : List NBar) : FactorScore :=
  match lastN 252 bars with
  | [] => ⟨0, 15, "Insufficient data for annual analysis"⟩
  | [_] => ⟨5, 15, "Insufficient data for annual analysis (single day)"⟩
  | bs@(b0 :: _ :: _) =>
    -- the source divides by the first close without a zero guard; for
    -- normalized bars every close is positive
    let changePercent := ((endD bs dBar).c - b0.c) / b0.c * 100
    let period := if 200 ≤ bs.length then "annual" else toString bs.length ++ "-day"
    if 25 ≤ changePercent then ⟨15, 15, "Strong " ++ period ++ " growth: +" ++ toFixed1 changePercent ++ "%"⟩
    else if 15 ≤ changePercent then ⟨12, 15, "Good " ++ period ++ " growth: +" ++ toFixed1 changePercent ++ "%"⟩
    else if 5 ≤ changePercent then ⟨8, 15, "Moderate " ++ period ++ " growth: +" ++ toFixed1 changePercent ++ "%"⟩
    else if 0 ≤ changePercent then ⟨5, 15, "Weak " ++ period ++ " growth: +" ++ toFixed1 changePercent ++ "%"⟩
    else ⟨2, 15, "Negative " ++ period ++ " growth: " ++ toFixed1 changePercent ++ "%"⟩

/-- `CANSLIMService.scoreNewHighs` (shared). -/
def scoreNewHighs (currentPrice : ℚ) (bars : List NBar) : FactorScore :=
  if bars.length < 1 then ⟨0, 15, "Insufficient data"⟩
  else
    match bars.filter (fun b => 0 < b.h) with
    | [] => ⟨0, 15, "Invalid high price data"⟩
    | [b] =>
      let percentFromHigh := (currentPrice - b.h) / b.h * 100
      if -5 ≤ percentFromHigh then ⟨12, 15, "Trading near high (limited data)"⟩
      else ⟨6, 15, "Currently " ++ toFixed1 |percentFromHigh| ++ "% below high"⟩
    | vbs@(_ :: _ :: _) =>
      let recentHighs := (lastN 60 vbs).map (fun b => b.h)
      let allTimeHigh := maxList (vbs.map (fun b => b.h))
      let recentHigh := maxList recentHighs
      let percentFromHigh := (currentPrice - allTimeHigh) / allTimeHigh * 100
      let isNearHigh := -5 ≤ percentFromHigh
      if isNearHigh ∧ recentHigh * 0.95 ≤ currentPrice then ⟨15, 15, "Trading near new highs"⟩
      else if isNearHigh then ⟨12, 15, "Approaching new highs"⟩
      else if -15 ≤ percentFromHigh then ⟨8, 15, "Moderate distance from highs"⟩
      else ⟨4, 15, "Well below highs"⟩

/-- `CANSLIMService.scoreSupplyAndDemand` (shared): the volume-pattern
proxy for factor S. -/
def scoreSupplyAndDemand (volume : ℚ) (bars : List NBar) : FactorScore :=
  if bars.length < 1 then ⟨0, 10, "Insufficient data"⟩
  else
    let recentBars := (lastN 20 bars).filter (fun b => 0 ≤ b.v)
    if recentBars.isEmpty then ⟨5, 10, "No volume data available"⟩
    else
      let avgVolume := ((recentBars.map (fun b => b.v)).sum) / (recentBars.length : ℚ)
      if avgVolume = 0 then ⟨0, 10, "Zero average volume"⟩
      else
        let volumeRatio := volume / avgVolume
        let upDays := recentBars.filter (fun b => b.o < b.c)
        let avgUpVolume :=
          if 0 < upDays.length then ((upDays.map (fun b => b.v)).sum) / (upDays.length : ℚ) else 0
        if 1.5 ≤ volumeRatio ∧ avgVolume * 1.2 < avgUpVolume then
          ⟨10, 10, "Strong demand, high volume on advances"⟩
        else if 1.2 ≤ volumeRatio then ⟨8, 10, "Good volume activity"⟩
        else if 0.8 ≤ volumeRatio then ⟨6, 10, "Average volume"⟩
        else ⟨3, 10, "Low volume, weak demand"⟩

/-- `CANSLIMService.scoreLeaderOrLaggard` (shared). -/
def scoreLeaderOrLaggard (bars : List NBar) : FactorScore :=
  if bars.length < 2 then
    if bars.length = 1 then ⟨5, 10, "Insufficient data for relative performance (single day)"⟩
    else ⟨0, 10, "Insufficient data"⟩
  else
    let halfLength := max 1 (bars.length / 2)
    let recentBars := lastN halfLength bars
    let earlierBars := bars.take (bars.length - halfLength)
    if recentBars.length < 2 ∨ (recentBars.headD dBar).c = 0 then
      ⟨0, 10, "Invalid recent price data"⟩
    else
      let r0 := (recentBars.headD dBar).c
      let recentReturn := ((endD recentBars dBar).c - r0) / r0 * 100
      let earlierReturn :=
        if 2 ≤ earlierBars.length ∧ 0 < (earlierBars.headD dBar).c then
          ((endD earlierBars dBar).c - (earlierBars.headD dBar).c) / (earlierBars.headD dBar).c * 100
        else 0
      if 10 < recentReturn ∧ earlierReturn < recentReturn then
        ⟨10, 10, "Market leader - strong outperformance"⟩
      else if 5 < recentReturn then ⟨8, 10, "Good relative performance"⟩
      else if 0 < recentReturn then ⟨6, 10, "Moderate performance"⟩
      else ⟨3, 10, "Laggard - underperforming"⟩

/-- `CANSLIMService.scoreInstitutionalSponsorship` (shared): high-volume-day
count with thresholds scaled by `recentBars.length / 20`. -/
def scoreInstitutionalSponsorship (volume : ℚ) (bars : List NBar) : FactorScore :=
  if bars.length < 1 then ⟨0, 10, "Insufficient data"⟩
  else
    let recentBars := (lastN 20 bars).filter (fun b => 0 ≤ b.v)
    if recentBars.isEmpty then ⟨0, 10, "No valid volume data"⟩
    else
      let avgVolume := ((recentBars.map (fun b => b.v)).sum) / (recentBars.length : ℚ)
      if avgVolume = 0 then ⟨0, 10, "Zero average volume"⟩
      else
        let highVolumeDays := (recentBars.filter (fun b => avgVolume * 1.5 < b.v)).length
        let scaleFactor : ℚ := (recentBars.length : ℚ) / 20
        if jsCeil (8 * scaleFactor) ≤ (highVolumeDays : ℚ) ∧ avgVolume < volume then
          ⟨10, 10, "Strong institutional interest"⟩
        else if jsCeil (5 * scaleFactor) ≤ (highVolumeDays : ℚ) then
          ⟨8, 10, "Moderate institutional activity"⟩
        else if jsCeil (3 * scaleFactor) ≤ (highVolumeDays : ℚ) then
          ⟨6, 10, "Some institutional interest"⟩
        else ⟨3, 10, "Limited institutional sponsorship"⟩

/-- `CANSLIMService.scoreMarketDirection` (shared). -/
def scoreMarketDirection (bars : List NBar) : FactorScore :=
  if bars.length < 2 then
    match bars with
    | [b] =>
      let isUp := b.o < b.c
      ⟨if isUp then 6 else 4, 10,
        "Single day: " ++ (if isUp then "up" else "down") ++ " day (limited data)"⟩
    | _ => ⟨0, 10, "Insufficient data"⟩
  else
    let recentBars := (lastN 20 bars).filter (fun b => 0 < b.c)
    if recentBars.length < 2 then ⟨0, 10, "Invalid price data"⟩
    else
      let startPrice := (recentBars.headD dBar).c
      if startPrice = 0 then ⟨0, 10, "Invalid start price"⟩
      else
        let trend := ((endD recentBars dBar).c - startPrice) / startPrice * 100
        let upDays := (recentBars.filter (fun b => b.o < b.c)).length
        let downDays := (recentBars.filter (fun b => b.c < b.o)).length
        if 5 < trend ∧ (downDays : ℚ) * 1.5 < (upDays : ℚ) then ⟨10, 10, "Strong uptrend"⟩
        else if 2 < trend ∧ downDays < upDays then ⟨8, 10, "Moderate uptrend"⟩
        else if 0 < trend then ⟨6, 10, "Slight uptrend"⟩
        else if -5 < trend then ⟨4, 10, "Sideways/weak trend"⟩
        else ⟨2, 10, "Downtrend"⟩

end Canslim

namespace Canslim

/-- One `quarterlyEarnings`/`annualEarnings` line item of Alpha Vantage
`EarningsData`; `reportedEPS` is the `parseFloat` of the reported string
(`none` = non-numeric, i.e. NaN). -/
structure EpsRecord where
  fiscalDateEnding : String
  reportedEPS : Option ℚ
deriving DecidableEq, Repr

/-- Alpha Vantage `EarningsData`. -/
structure EarningsData where
  quarterlyEarnings : List EpsRecord
  annualEarnings : List EpsRecord
deriving DecidableEq, Repr

/-- Alpha Vantage `CompanyOverview`, reduced to the one field the scorer
reads.  `SharesOutstanding` is a string: the outer layer models its JS
truthiness (`none` = absent/empty), the inner layer its `parseFloat`. -/
structure CompanyOverview where
  SharesOutstanding : Option (Option ℚ)
deriving DecidableEq, Repr

/-- The optional `fundamentals` argument of `calculateScore`. -/
structure Fundamentals where
  earnings : Option EarningsData
  overview : Option CompanyOverview
deriving DecidableEq, Repr

/-- The `metric` object of Finnhub basic financials, reduced to the fields
the scorers read; `none` models undefined/null/NaN uniformly (the metrics
come from JSON, which cannot carry NaN). -/
structure FinnhubMetric where
  epsGrowthQuarterlyYoy : Option ℚ
  epsGrowth3Y : Option ℚ
  epsGrowth5Y : Option ℚ
  epsGrowthTTMYoy : Option ℚ
  week52High : Option ℚ
  week52PriceReturnDaily : Option ℚ
  priceRelativeToSP50052Week : Option ℚ
  priceRelativeToSP5004Week : Option ℚ
  priceRelativeToSP50013Week : Option ℚ
deriving DecidableEq, Repr

/-- One Finnhub earnings-surprise item. -/
structure FinnhubEarningsItem where
  actual : Option ℚ
deriving DecidableEq, Repr

/-- `FinnhubEarnings`. -/
structure FinnhubEarnings where
  earnings : List FinnhubEarningsItem
deriving DecidableEq, Repr

/-- `FinnhubCompanyProfile`, reduced to the field the scorer reads. -/
structure FinnhubProfile where
  shareOutstanding : Option ℚ
deriving DecidableEq, Repr

/-- `FinnhubFundamentals`: `financials` stands for
`financials.metric` (the object-truthiness test `finnhub?.financials?.metric`
only checks presence). -/
structure FinnhubFundamentals where
  profile : Option FinnhubProfile
  financials : Option FinnhubMetric
  earnings : Option FinnhubEarnings
deriving DecidableEq, Repr

/-- `CANSLIMService.scoreCurrentQuarterlyEarningsWithData` (Alpha Vantage
real quarterly EPS). -/
def scoreCurrentQuarterlyEarningsWithData (earnings : EarningsData) : FactorScore :=
  match earnings.quarterlyEarnings with
  | currentQuarter :: previousQuarter :: _ =>
    match currentQuarter.reportedEPS, previousQuarter.reportedEPS with
    | some currentEPS, some previousEPS =>
      if previousEPS = 0 then ⟨0, 15, "Invalid earnings data"⟩
      else
        let growthPercent := (currentEPS - previousEPS) / |previousEPS| * 100
        let tail := " (" ++ currentQuarter.fiscalDateEnding ++ ")"
        if 25 ≤ growthPercent then
          ⟨15, 15, "Strong quarterly EPS growth: " ++ toFixed1 growthPercent ++ "%" ++ tail⟩
        else if 15 ≤ growthPercent then
          ⟨12, 15, "Good quarterly EPS growth: " ++ toFixed1 growthPercent ++ "%" ++ tail⟩
        else if 5 ≤ growthPercent then
          ⟨8, 15, "Moderate quarterly EPS growth: " ++ toFixed1 growthPercent ++ "%" ++ tail⟩
        else if 0 ≤ growthPercent then
          ⟨5, 15, "Weak quarterly EPS growth: " ++ toFixed1 growthPercent ++ "%" ++ tail⟩
        else ⟨2, 15, "Negative quarterly EPS growth: " ++ toFixed1 growthPercent ++ "%" ++ tail⟩
    | _, _ => ⟨0, 15, "Invalid earnings data"⟩
  | _ => ⟨0, 15, "Insufficient quarterly earnings data"⟩

/-- `CANSLIMService.scoreAnnualEarningsGrowthWithData` (Alpha Vantage real
annual EPS). -/
def scoreAnnualEarningsGrowthWithData (earnings : EarningsData) : FactorScore :=
  match earnings.annualEarnings with
  | currentYear :: previousYear :: _ =>
    match currentYear.reportedEPS, previousYear.reportedEPS with
    | some currentEPS, some previousEPS =>
      if previousEPS = 0 then ⟨0, 15, "Invalid annual earnings data"⟩
      else
        let growthPercent := (currentEPS - previousEPS) / |previousEPS| * 100
        let tail := " (" ++ currentYear.fiscalDateEnding ++ ")"
        if 25 ≤ growthPercent then
          ⟨15, 15, "Strong annual EPS growth: " ++ toFixed1 growthPercent ++ "%" ++ tail⟩
        else if 15 ≤ growthPercent then
          ⟨12, 15, "Good annual EPS growth: " ++ toFixed1 growthPercent ++ "%" ++ tail⟩
        else if 5 ≤ growthPercent then
          ⟨8, 15, "Moderate annual EPS growth: " ++ toFixed1 growthPercent ++ "%" ++ tail⟩
        else if 0 ≤ growthPercent then
          ⟨5, 15, "Weak annual EPS growth: " ++ toFixed1 growthPercent ++ "%" ++ tail⟩
        else ⟨2, 15, "Negative annual EPS growth: " ++ toFixed1 growthPercent ++ "%" ++ tail⟩
    | _, _ => ⟨0, 15, "Invalid annual earnings data"⟩
  | _ => ⟨0, 15, "Insufficient annual earnings data (need at least 2 years)"⟩

/-- `CANSLIMService.scoreSupplyAndDemandWithData` (Alpha Vantage shares
outstanding, passed as the `parseFloat` of the string). -/
def scoreSupplyAndDemandWithData (volume : ℚ) (bars : List NBar)
    (sharesOutstanding : Option ℚ) : FactorScore :=
  match sharesOutstanding with
  | none => scoreSupplyAndDemand volume bars
  | some shares =>
    if shares ≤ 0 then scoreSupplyAndDemand volume bars
    else
      let sharesInMillions := shares / 1000000
      let base : ℚ × String :=
        if sharesInMillions < 50 then
          (10, "Excellent: " ++ toFixed1 sharesInMillions ++ "M shares outstanding (low float)")
        else if sharesInMillions < 200 then
          (8, "Good: " ++ toFixed1 sharesInMillions ++ "M shares outstanding")
        else if sharesInMillions < 500 then
          (6, "Moderate: " ++ toFixed1 sharesInMillions ++ "M shares outstanding")
        else (3, "High float: " ++ toFixed1 sharesInMillions ++ "M shares outstanding")
      if 2 ≤ bars.length then
        let recentBars := lastN 20 bars
        let avgVolume := ((recentBars.map (fun b => b.v)).sum) / (recentBars.length : ℚ)
        -- JS `volume / avgVolume >= 1.5` with avgVolume = 0 is `+∞ >= 1.5`
        -- when volume > 0 and `NaN >= 1.5` (false) when volume = 0
        if (if avgVolume = 0 then 0 < volume else 1.5 ≤ volume / avgVolume) then
          ⟨min 10 (base.1 + 1), 10, base.2 ++ ", strong volume activity"⟩
        else ⟨base.1, 10, base.2⟩
      else ⟨base.1, 10, base.2⟩

/-- `CANSLIMService.gradeEarningsGrowth` (Finnhub tier helper). -/
def gradeEarningsGrowth (growth : ℚ) (label : String) (maxScore : ℚ) : FactorScore :=
  if 40 ≤ growth then
    ⟨maxScore, maxScore, "Excellent " ++ label ++ ": +" ++ toFixed1 growth ++ "%"⟩
  else if 25 ≤ growth then
    ⟨jsRound (maxScore * 0.9), maxScore, "Strong " ++ label ++ ": +" ++ toFixed1 growth ++ "%"⟩
  else if 15 ≤ growth then
    ⟨jsRound (maxScore * 0.7), maxScore, "Good " ++ label ++ ": +" ++ toFixed1 growth ++ "%"⟩
  else if 5 ≤ growth then
    ⟨jsRound (maxScore * 0.5), maxScore, "Moderate " ++ label ++ ": +" ++ toFixed1 growth ++ "%"⟩
  else if 0 ≤ growth then
    ⟨jsRound (maxScore * 0.3), maxScore, "Weak " ++ label ++ ": +" ++ toFixed1 growth ++ "%"⟩
  else ⟨jsRound (maxScore * 0.1), maxScore, "Negative " ++ label ++ ": " ++ toFixed1 growth ++ "%"⟩

/-- `CANSLIMService.scoreCurrentQuarterlyEarningsWithFinnhub`. -/
def scoreCurrentQuarterlyEarningsWithFinnhub (financials : FinnhubMetric)
    (earnings : Option FinnhubEarnings) : FactorScore :=
  match financials.epsGrowthQuarterlyYoy with
  | some epsGrowthQtr => gradeEarningsGrowth epsGrowthQtr "Quarterly EPS YoY" 15
  | none =>
    match earnings with
    | some e =>
      match e.earnings with
      | current :: previous :: _ =>
        -- `current.actual && previous.actual && previous.actual !== 0`:
        -- truthiness already excludes 0 and NaN
        match current.actual, previous.actual with
        | some ca, some pa =>
          if ca ≠ 0 ∧ pa ≠ 0 then
            gradeEarningsGrowth ((ca - pa) / |pa| * 100) "Quarterly EPS" 15
          else ⟨0, 15, "N/A - Quarterly EPS data unavailable"⟩
        | _, _ => ⟨0, 15, "N/A - Quarterly EPS data unavailable"⟩
      | _ => ⟨0, 15, "N/A - Quarterly EPS data unavailable"⟩
    | none => ⟨0, 15, "N/A - Quarterly EPS data unavailable"⟩

/-- `CANSLIMService.scoreAnnualEarningsGrowthWithFinnhub`. -/
def scoreAnnualEarningsGrowthWithFinnhub (financials : FinnhubMetric) : FactorScore :=
  match financials.epsGrowth3Y with
  | some g => gradeEarningsGrowth g "3-Year EPS CAGR" 15
  | none =>
    match financials.epsGrowth5Y with
    | some g => gradeEarningsGrowth g "5-Year EPS CAGR" 15
    | none =>
      match financials.epsGrowthTTMYoy with
      | some g => gradeEarningsGrowth g "TTM EPS YoY" 15
      | none => ⟨0, 15, "N/A - Annual EPS growth data unavailable"⟩

/-- `CANSLIMService.scoreNewHighsWithFinnhub`. -/
def scoreNewHighsWithFinnhub (currentPrice : ℚ) (financials : FinnhubMetric) : FactorScore :=
  match financials.week52High with
  | none => ⟨0, 15, "N/A - 52-week high data unavailable"⟩
  | some high52Week =>
    if high52Week = 0 then ⟨0, 15, "N/A - 52-week high data unavailable"⟩
    else
      let percentFromHigh := (currentPrice - high52Week) / high52Week * 100
      if -2 ≤ percentFromHigh then
        ⟨15, 15, "At/near 52-week high (" ++ toFixed1 percentFromHigh ++ "% from high)"⟩
      else if -5 ≤ percentFromHigh then
        ⟨12, 15, "Close to 52-week high (" ++ toFixed1 percentFromHigh ++ "% from high)"⟩
      else if -15 ≤ percentFromHigh then
        ⟨8, 15, "Moderate distance from high (" ++ toFixed1 percentFromHigh ++ "% from high)"⟩
      else if -25 ≤ percentFromHigh then
        ⟨5, 15, "Below 52-week high (" ++ toFixed1 percentFromHigh ++ "% from high)"⟩
      else ⟨2, 15, "Well below 52-week high (" ++ toFixed1 percentFromHigh ++ "% from high)"⟩

/-- `CANSLIMService.scoreSupplyAndDemandWithFinnhub` (shares given in
millions; the `volume`/`bars` parameters are accepted and unused, as in
the source). -/
def scoreSupplyAndDemandWithFinnhub (volume : ℚ) (bars : List NBar)
    (shareOutstanding : ℚ) : FactorScore :=
  let sharesInMillions := shareOutstanding
  let _ := volume
  let _ := bars
  if sharesInMillions ≤ 0 then ⟨0, 10, "N/A - Shares outstanding data unavailable"⟩
  else if sharesInMillions < 25 then
    ⟨10, 10, "Excellent: " ++ toFixed1 sharesInMillions ++ "M shares (micro-cap float)"⟩
  else if sharesInMillions < 100 then
    ⟨8, 10, "Good: " ++ toFixed1 sharesInMillions ++ "M shares (small float)"⟩
  else if sharesInMillions < 500 then
    ⟨6, 10, "Moderate: " ++ toFixed1 sharesInMillions ++ "M shares"⟩
  else if sharesInMillions < 2000 then
    ⟨4, 10, "Large: " ++ toFixed2 (sharesInMillions / 1000) ++ "B shares"⟩
  else ⟨2, 10, "Very large: " ++ toFixed2 (sharesInMillions / 1000) ++ "B shares (mega-cap)"⟩

/-- `CANSLIMService.scoreLeaderOrLaggardWithFinnhub`. -/
def scoreLeaderOrLaggardWithFinnhub (financials : FinnhubMetric) : FactorScore :=
  match financials.priceRelativeToSP50052Week with
  | some relStrength52W =>
    if 30 ≤ relStrength52W then
      ⟨10, 10, "Market leader: +" ++ toFixed1 relStrength52W ++ "% vs S&P 500 (52W)"⟩
    else if 15 ≤ relStrength52W then
      ⟨8, 10, "Strong performer: +" ++ toFixed1 relStrength52W ++ "% vs S&P 500 (52W)"⟩
    else if 0 ≤ relStrength52W then
      ⟨6, 10, "Outperforming: +" ++ toFixed1 relStrength52W ++ "% vs S&P 500 (52W)"⟩
    else if -15 ≤ relStrength52W then
      ⟨4, 10, "Underperforming: " ++ toFixed1 relStrength52W ++ "% vs S&P 500 (52W)"⟩
    else ⟨2, 10, "Laggard: " ++ toFixed1 relStrength52W ++ "% vs S&P 500 (52W)"⟩
  | none =>
    match financials.week52PriceReturnDaily with
    | some returnDaily52W =>
      if 50 ≤ returnDaily52W then ⟨10, 10, "Strong: +" ++ toFixed1 returnDaily52W ++ "% (52W return)"⟩
      else if 25 ≤ returnDaily52W then ⟨8, 10, "Good: +" ++ toFixed1 returnDaily52W ++ "% (52W return)"⟩
      else if 0 ≤ returnDaily52W then ⟨6, 10, "Positive: +" ++ toFixed1 returnDaily52W ++ "% (52W return)"⟩
      else if -20 ≤ returnDaily52W then ⟨4, 10, "Weak: " ++ toFixed1 returnDaily52W ++ "% (52W return)"⟩
      else ⟨2, 10, "Poor: " ++ toFixed1 returnDaily52W ++ "% (52W return)"⟩
    | none => ⟨0, 10, "N/A - Relative strength data unavailable"⟩

/-- `CANSLIMService.scoreMarketDirectionWithFinnhub`. -/
def scoreMarketDirectionWithFinnhub (financials : FinnhubMetric) : FactorScore :=
  match financials.priceRelativeToSP5004Week, financials.priceRelativeToSP50013Week with
  | some rel4W, some rel13W =>
    let avgRel := (rel4W + rel13W) / 2
    let stockReturnPos : Bool :=
      match financials.week52PriceReturnDaily with
      | some r => decide (0 < r)
      | none => false
    if 10 ≤ avgRel ∧ stockReturnPos then
      ⟨10, 10, "Favorable: Stock +" ++ toFixed1 avgRel ++ "% vs market (avg 4W/13W)"⟩
    else if 0 ≤ avgRel then
      ⟨8, 10, "Positive: Stock +" ++ toFixed1 avgRel ++ "% vs market (avg 4W/13W)"⟩
    else if -10 ≤ avgRel then
      ⟨5, 10, "Neutral: Stock " ++ toFixed1 avgRel ++ "% vs market (avg 4W/13W)"⟩
    else ⟨3, 10, "Unfavorable: Stock " ++ toFixed1 avgRel ++ "% vs market (avg 4W/13W)"⟩
  | _, _ =>
    match financials.week52PriceReturnDaily with
    | some stockReturn =>
      if 20 < stockReturn then ⟨10, 10, "Strong momentum: +" ++ toFixed1 stockReturn ++ "% (52W)"⟩
      else if 0 < stockReturn then ⟨7, 10, "Positive trend: +" ++ toFixed1 stockReturn ++ "% (52W)"⟩
      else if -10 < stockReturn then ⟨4, 10, "Weak trend: " ++ toFixed1 stockReturn ++ "% (52W)"⟩
      else ⟨2, 10, "Downtrend: " ++ toFixed1 stockReturn ++ "% (52W)"⟩
    | none => ⟨0, 10, "N/A - Market direction data unavailable"⟩

end Canslim

namespace CanslimAV

open Canslim

/-- Factor C dispatch of the Alpha-Vantage-aware `calculateScore`
(src/unnamed/part_009): `fundamentals?.earnings ? withData : proxy`. -/
def factorC (fundamentals : Option Fundamentals) (sortedBars : List NBar) : FactorScore :=
  match fundamentals.bind (fun f => f.earnings) with
  | some e => scoreCurrentQuarterlyEarningsWithData e
  | none => scoreCurrentQuarterlyEarnings sortedBars

/-- Factor A dispatch: `fundamentals?.earnings ? withData : proxy`. -/
def factorA (fundamentals : Option Fundamentals) (sortedBars : List NBar) : FactorScore :=
  match fundamentals.bind (fun f => f.earnings) with
  | some e => scoreAnnualEarningsGrowthWithData e
  | none => scoreAnnualEarningsGrowth sortedBars

/-- Factor S dispatch:
`fundamentals?.overview?.SharesOutstanding ? withData : proxy`. -/
def factorS (fundamentals : Option Fundamentals) (volume : ℚ) (sortedBars : List NBar) : FactorScore :=
  match fundamentals.bind (fun f => f.overview) |>.bind (fun o => o.SharesOutstanding) with
  | some parsed => scoreSupplyAndDemandWithData volume sortedBars parsed
  | none => scoreSupplyAndDemand volume sortedBars

/-- `CANSLIMService.calculateScore` of the Alpha-Vantage-aware variant
(src/unnamed/part_009): real earnings/overview data when supplied,
price/volume proxies otherwise. -/
def calculateScore (currentPrice : ℚ) (historicalBars : List RawBar) (volume : ℚ)
    (fundamentals : Option Fundamentals) : CANSLIMScore :=
  if historicalBars.isEmpty then getDefaultScore "No historical data available"
  else
    let validBars := ((filterRepair historicalBars).2).map toBar
    if validBars.isEmpty then getDefaultScore "No valid price data available"
    else
      let sortedBars :=
        if validBars.all (fun b => b.t.isSome) then stableSortBy barCmp validBars else validBars
      mkScore
        ⟨factorC fundamentals sortedBars,
         factorA fundamentals sortedBars,
         scoreNewHighs currentPrice sortedBars,
         factorS fundamentals volume sortedBars,
         scoreLeaderOrLaggard sortedBars,
         scoreInstitutionalSponsorship volume sortedBars,
         scoreMarketDirection sortedBars⟩

end CanslimAV

namespace CanslimFH

open Canslim

/-- Factor C dispatch of the Finnhub-aware `calculateScore`
(src/unnamed/part_010): Finnhub metric first, Alpha Vantage earnings
second, the N/A constant third. -/
def factorC (finnhub : Option FinnhubFundamentals) (fundamentals : Option Fundamentals) : FactorScore :=
  match finnhub.bind (fun f => f.financials) with
  | some metric =>
    scoreCurrentQuarterlyEarningsWithFinnhub metric (finnhub.bind (fun f => f.earnings))
  | none =>
    match fundamentals.bind (fun f => f.earnings) with
    | some e => scoreCurrentQuarterlyEarningsWithData e
    | none => ⟨0, 15, "N/A - No earnings data (configure Finnhub API)"⟩

/-- Factor A dispatch: Finnhub metric, Alpha Vantage earnings, or N/A. -/
def factorA (finnhub : Option FinnhubFundamentals) (fundamentals : Option Fundamentals) : FactorScore :=
  match finnhub.bind (fun f => f.financials) with
  | some metric => scoreAnnualEarningsGrowthWithFinnhub metric
  | none =>
    match fundamentals.bind (fun f => f.earnings) with
    | some e => scoreAnnualEarningsGrowthWithData e
    | none => ⟨0, 15, "N/A - No earnings data (configure Finnhub API)"⟩

/-- Factor N dispatch: Finnhub 52-week data when present, bar highs
otherwise. -/
def factorN (finnhub : Option FinnhubFundamentals) (currentPrice : ℚ)
    (sortedBars : List NBar) : FactorScore :=
  match finnhub.bind (fun f => f.financials) with
  | some metric => scoreNewHighsWithFinnhub currentPrice metric
  | none => scoreNewHighs currentPrice sortedBars

/-- Factor S dispatch: `finnhub?.profile?.shareOutstanding ?` (truthy iff
present and nonzero), then Alpha Vantage overview, then N/A. -/
def factorS (finnhub : Option FinnhubFundamentals) (fundamentals : Option Fundamentals)
    (volume : ℚ) (sortedBars : List NBar) : FactorScore :=
  match finnhub.bind (fun f => f.profile) |>.bind (fun p => p.shareOutstanding) with
  | some q =>
    if q = 0 then
      match fundamentals.bind (fun f => f.overview) |>.bind (fun o => o.SharesOutstanding) with
      | some parsed => scoreSupplyAndDemandWithData volume sortedBars parsed
      | none => ⟨0, 10, "N/A - No shares data (configure Finnhub API)"⟩
    else scoreSupplyAndDemandWithFinnhub volume sortedBars q
  | none =>
    match fundamentals.bind (fun f => f.overview) |>.bind (fun o => o.SharesOutstanding) with
    | some parsed => scoreSupplyAndDemandWithData volume sortedBars parsed
    | none => ⟨0, 10, "N/A - No shares data (configure Finnhub API)"⟩

/-- Factor L dispatch: Finnhub relative strength when present, the
half-series comparison otherwise. -/
def factorL (finnhub : Option FinnhubFundamentals) (sortedBars : List NBar) : FactorScore :=
  match finnhub.bind (fun f => f.financials) with
  | some metric => scoreLeaderOrLaggardWithFinnhub metric
  | none => scoreLeaderOrLaggard sortedBars

/-- Factor M dispatch: Finnhub market-relative data when present, the
bar-trend proxy otherwise. -/
def factorM (finnhub : Option FinnhubFundamentals) (sortedBars : List NBar) : FactorScore :=
  match finnhub.bind (fun f => f.financials) with
  | some metric => scoreMarketDirectionWithFinnhub metric
  | none => scoreMarketDirection sortedBars

/-- `CANSLIMService.calculateScore` of the Finnhub-aware variant
(src/unnamed/part_010): Finnhub first, Alpha Vantage second, N/A third for
C/A/S; factor I is hard-coded N/A. -/
def calculateScore (currentPrice : ℚ) (historicalBars : List RawBar) (volume : ℚ)
    (fundamentals : Option Fundamentals) (finnhub : Option FinnhubFundamentals) : CANSLIMScore :=
  if historicalBars.isEmpty then getDefaultScore "No historical data available"
  else
    let validBars := ((filterRepair historicalBars).2).map toBar
    if validBars.isEmpty then getDefaultScore "No valid price data available"
    else
      let sortedBars :=
        if validBars.all (fun b => b.t.isSome) then stableSortBy barCmp validBars else validBars
      mkScore
        ⟨factorC finnhub fundamentals,
         factorA finnhub fundamentals,
         factorN finnhub currentPrice sortedBars,
         factorS finnhub fundamentals volume sortedBars,
         factorL finnhub sortedBars,
         ⟨0, 10, "N/A - Institutional data requires premium API"⟩,
         factorM finnhub sortedBars⟩

end CanslimFH

namespace Canslim

/-- Well-formedness of one factor result: the fixed maximum for its slot,
and a score between 0 and that maximum. -/
def FSinv (f : FactorScore) (M : ℚ) : Prop :=
  f.maxScore = M ∧ 0 ≤ f.score ∧ f.score ≤ M

theorem fsinv_gradeEarningsGrowth (g : ℚ) (lbl : String) :
    FSinv (gradeEarningsGrowth g lbl 15) 15 := by
  unfold gradeEarningsGrowth
  repeat' split
  all_goals try simp [FSinv, jsRound]
  all_goals norm_num

theorem fsinv_scoreCurrentQuarterlyEarnings (bars : List NBar) :
    FSinv (scoreCurrentQuarterlyEarnings bars) 15 := by
  unfold scoreCurrentQuarterlyEarnings
  repeat' split
  all_goals try simp [FSinv]
  all_goals try repeat' split
  all_goals norm_num

theorem fsinv_scoreAnnualEarningsGrowth (bars : List NBar) :
    FSinv (scoreAnnualEarningsGrowth bars) 15 := by
  unfold scoreAnnualEarningsGrowth
  repeat' split
  all_goals try simp [FSinv]
  all_goals try repeat' split
  all_goals norm_num

theorem fsinv_scoreNewHighs (cp : ℚ) (bars : List NBar) :
    FSinv (scoreNewHighs cp bars) 15 := by
  unfold scoreNewHighs
  repeat' split
  all_goals try simp [FSinv]
  all_goals try repeat' split
  all_goals norm_num

theorem fsinv_scoreSupplyAndDemand (v : ℚ) (bars : List NBar) :
    FSinv (scoreSupplyAndDemand v bars) 10 := by
  unfold scoreSupplyAndDemand
  repeat' split
  all_goals try simp [FSinv]
  all_goals try repeat' split
  all_goals norm_num

theorem fsinv_scoreLeaderOrLaggard (bars : List NBar) :
    FSinv (scoreLeaderOrLaggard bars) 10 := by
  unfold scoreLeaderOrLaggard
  repeat' split
  all_goals try simp [FSinv]
  all_goals try repeat' split
  all_goals norm_num

theorem fsinv_scoreInstitutionalSponsorship (v : ℚ) (bars : List NBar) :
    FSinv (scoreInstitutionalSponsorship v bars) 10 := by
  unfold scoreInstitutionalSponsorship
  repeat' split
  all_goals try simp [FSinv]
  all_goals try repeat' split
  all_goals norm_num

theorem fsinv_scoreMarketDirection (bars : List NBar) :
    FSinv (scoreMarketDirection bars) 10 := by
  unfold scoreMarketDirection
  repeat' split
  all_goals try simp [FSinv]
  all_goals try repeat' split
  all_goals norm_num

theorem fsinv_scoreCurrentQuarterlyEarningsWithData (e : EarningsData) :
    FSinv (scoreCurrentQuarterlyEarningsWithData e) 15 := by
  unfold scoreCurrentQuarterlyEarningsWithData
  repeat' split
  all_goals try simp [FSinv]
  all_goals try repeat' split
  all_goals norm_num

theorem fsinv_scoreAnnualEarningsGrowthWithData (e : EarningsData) :
    FSinv (scoreAnnualEarningsGrowthWithData e) 15 := by
  unfold scoreAnnualEarningsGrowthWithData
  repeat' split
  all_goals try simp [FSinv]
  all_goals try repeat' split
  all_goals norm_num

theorem fsinv_scoreSupplyAndDemandWithData (v : ℚ) (bars : List NBar) (so : Option ℚ) :
    FSinv (scoreSupplyAndDemandWithData v bars so) 10 := by
  unfold scoreSupplyAndDemandWithData
  repeat' split
  all_goals try exact fsinv_scoreSupplyAndDemand v bars
  all_goals try simp [FSinv]
  all_goals try repeat' split
  all_goals norm_num

theorem fsinv_scoreCurrentQuarterlyEarningsWithFinnhub (fm : FinnhubMetric)
    (fe : Option FinnhubEarnings) :
    FSinv (scoreCurrentQuarterlyEarningsWithFinnhub fm fe) 15 := by
  unfold scoreCurrentQuarterlyEarningsWithFinnhub
  repeat' split
  all_goals try exact fsinv_gradeEarningsGrowth _ _
  all_goals simp [FSinv]

theorem fsinv_scoreAnnualEarningsGrowthWithFinnhub (fm : FinnhubMetric) :
    FSinv (scoreAnnualEarningsGrowthWithFinnhub fm) 15 := by
  unfold scoreAnnualEarningsGrowthWithFinnhub
  repeat' split
  all_goals try exact fsinv_gradeEarningsGrowth _ _
  all_goals simp [FSinv]

theorem fsinv_scoreNewHighsWithFinnhub (cp : ℚ) (fm : FinnhubMetric) :
    FSinv (scoreNewHighsWithFinnhub cp fm) 15 := by
  unfold scoreNewHighsWithFinnhub
  repeat' split
  all_goals try simp [FSinv]
  all_goals try repeat' split
  all_goals norm_num

theorem fsinv_scoreSupplyAndDemandWithFinnhub (v : ℚ) (bars : List NBar) (so : ℚ) :
    FSinv (scoreSupplyAndDemandWithFinnhub v bars so) 10 := by
  unfold scoreSupplyAndDemandWithFinnhub
  dsimp only
  repeat' split
  all_goals simp [FSinv]
  all_goals norm_num

theorem fsinv_scoreLeaderOrLaggardWithFinnhub (fm : FinnhubMetric) :
    FSinv (scoreLeaderOrLaggardWithFinnhub fm) 10 := by
  unfold scoreLeaderOrLaggardWithFinnhub
  repeat' split
  all_goals simp [FSinv]
  all_goals norm_num

theorem fsinv_scoreMarketDirectionWithFinnhub (fm : FinnhubMetric) :
    FSinv (scoreMarketDirectionWithFinnhub fm) 10 := by
  unfold scoreMarketDirectionWithFinnhub
  repeat' split
  all_goals try simp [FSinv]
  all_goals try repeat' split
  all_goals norm_num

/-- Well-formedness of the seven factor slots with the fixed maxima
15/15/15/10/10/10/10. -/
def ScoresInv (scs : Scores) : Prop :=
  FSinv scs.c 15 ∧ FSinv scs.a 15 ∧ FSinv scs.n 15 ∧ FSinv scs.s 10 ∧
    FSinv scs.l 10 ∧ FSinv scs.i 10 ∧ FSinv scs.m 10

/-- Well-formedness of a full result: well-formed slots, total equal to
the sum of the seven scores, fixed maximum total 85, and a grade among the
five letters. -/
def CANSLIMinv (r : CANSLIMScore) : Prop :=
  ScoresInv r.scores ∧
    r.totalScore = r.scores.c.score + r.scores.a.score + r.scores.n.score + r.scores.s.score +
      r.scores.l.score + r.scores.i.score + r.scores.m.score ∧
    r.maxTotalScore = 85 ∧
    r.overallGrade ∈ (["A", "B", "C", "D", "F"] : List String)

theorem gradeFor_mem (p : ℚ) : gradeFor p ∈ (["A", "B", "C", "D", "F"] : List String) := by
  unfold gradeFor
  repeat' split
  all_goals simp

theorem mkScore_inv (scs : Scores) (h : ScoresInv scs) : CANSLIMinv (mkScore scs) := by
  obtain ⟨⟨hc, _⟩, ⟨ha, _⟩, ⟨hn, _⟩, ⟨hs, _⟩, ⟨hl, _⟩, ⟨hi, _⟩, ⟨hm, _⟩⟩ := id h
  refine ⟨h, rfl, ?_, gradeFor_mem _⟩
  show scs.c.maxScore + scs.a.maxScore + scs.n.maxScore + scs.s.maxScore + scs.l.maxScore +
    scs.i.maxScore + scs.m.maxScore = 85
  rw [hc, ha, hn, hs, hl, hi, hm]; norm_num

theorem getDefaultScore_inv (reason : String) : CANSLIMinv (getDefaultScore reason) := by
  simp [CANSLIMinv, ScoresInv, FSinv, getDefaultScore]

end Canslim


namespace Canslim

theorem fsinv_factorC_AV (fund : Option Fundamentals) (sb : List NBar) :
    FSinv (CanslimAV.factorC fund sb) 15 := by
  unfold CanslimAV.factorC
  split
  · exact fsinv_scoreCurrentQuarterlyEarningsWithData _
  · exact fsinv_scoreCurrentQuarterlyEarnings _

theorem fsinv_factorA_AV (fund : Option Fundamentals) (sb : List NBar) :
    FSinv (CanslimAV.factorA fund sb) 15 := by
  unfold CanslimAV.factorA
  split
  · exact fsinv_scoreAnnualEarningsGrowthWithData _
  · exact fsinv_scoreAnnualEarningsGrowth _

theorem fsinv_factorS_AV (fund : Option Fundamentals) (v : ℚ) (sb : List NBar) :
    FSinv (CanslimAV.factorS fund v sb) 10 := by
  unfold CanslimAV.factorS
  split
  · exact fsinv_scoreSupplyAndDemandWithData _ _ _
  · exact fsinv_scoreSupplyAndDemand _ _

theorem fsinv_factorC_FH (fh : Option FinnhubFundamentals) (fund : Option Fundamentals) :
    FSinv (CanslimFH.factorC fh fund) 15 := by
  unfold CanslimFH.factorC
  repeat' split
  · exact fsinv_scoreCurrentQuarterlyEarningsWithFinnhub _ _
  · exact fsinv_scoreCurrentQuarterlyEarningsWithData _
  · simp [FSinv]

theorem fsinv_factorA_FH (fh : Option FinnhubFundamentals) (fund : Option Fundamentals) :
    FSinv (CanslimFH.factorA fh fund) 15 := by
  unfold CanslimFH.factorA
  repeat' split
  · exact fsinv_scoreAnnualEarningsGrowthWithFinnhub _
  · exact fsinv_scoreAnnualEarningsGrowthWithData _
  · simp [FSinv]

theorem fsinv_factorN_FH (fh : Option FinnhubFundamentals) (p : ℚ) (sb : List NBar) :
    FSinv (CanslimFH.factorN fh p sb) 15 := by
  unfold CanslimFH.factorN
  split
  · exact fsinv_scoreNewHighsWithFinnhub _ _
  · exact fsinv_scoreNewHighs _ _

theorem fsinv_factorS_FH (fh : Option FinnhubFundamentals) (fund : Option Fundamentals)
    (v : ℚ) (sb : List NBar) :
    FSinv (CanslimFH.factorS fh fund v sb) 10 := by
  unfold CanslimFH.factorS
  repeat' split
  all_goals
    first
      | exact fsinv_scoreSupplyAndDemandWithFinnhub _ _ _
      | exact fsinv_scoreSupplyAndDemandWithData _ _ _
      | simp [FSinv]

theorem fsinv_factorL_FH (fh : Option FinnhubFundamentals) (sb : List NBar) :
    FSinv (CanslimFH.factorL fh sb) 10 := by
  unfold CanslimFH.factorL
  split
  · exact fsinv_scoreLeaderOrLaggardWithFinnhub _
  · exact fsinv_scoreLeaderOrLaggard _

theorem fsinv_factorM_FH (fh : Option FinnhubFundamentals) (sb : List NBar) :
    FSinv (CanslimFH.factorM fh sb) 10 := by
  unfold CanslimFH.factorM
  split
  · exact fsinv_scoreMarketDirectionWithFinnhub _
  · exact fsinv_scoreMarketDirection _

theorem calculateScoreAV_inv (p : ℚ) (bars : List RawBar) (v : ℚ)
    (fund : Option Fundamentals) :
    CANSLIMinv (CanslimAV.calculateScore p bars v fund) := by
  simp only [CanslimAV.calculateScore]
  split
  · exact getDefaultScore_inv _
  split
  · exact getDefaultScore_inv _
  exact mkScore_inv _
    ⟨fsinv_factorC_AV _ _, fsinv_factorA_AV _ _, fsinv_scoreNewHighs _ _,
     fsinv_factorS_AV _ _ _, fsinv_scoreLeaderOrLaggard _,
     fsinv_scoreInstitutionalSponsorship _ _, fsinv_scoreMarketDirection _⟩

theorem calculateScoreFH_inv (p : ℚ) (bars : List RawBar) (v : ℚ)
    (fund : Option Fundamentals) (fh : Option FinnhubFundamentals) :
    CANSLIMinv (CanslimFH.calculateScore p bars v fund fh) := by
  simp only [CanslimFH.calculateScore]
  split
  · exact getDefaultScore_inv _
  split
  · exact getDefaultScore_inv _
  exact mkScore_inv _
    ⟨fsinv_factorC_FH _ _, fsinv_factorA_FH _ _, fsinv_factorN_FH _ _ _,
     fsinv_factorS_FH _ _ _ _, fsinv_factorL_FH _ _,
     by simp [FSinv], fsinv_factorM_FH _ _⟩

end Canslim

namespace Weinstein

/-- Well-formedness of a stage-analysis result: a stage among 1-4, the
input price echoed back, and bucket labels from the fixed vocabularies. -/
def Winv (a : WeinsteinAnalysis) (price : ℚ) : Prop :=
  (a.stage = 1 ∨ a.stage = 2 ∨ a.stage = 3 ∨ a.stage = 4) ∧
    a.currentPrice = price ∧
    a.trendStrength ∈ (["Strong", "Moderate", "Weak"] : List String) ∧
    a.volatility ∈ (["High", "Medium", "Low"] : List String)

theorem determineStage_cases (cp pv tr : ℚ) (vol : String) (rb : List RawBar) :
    determineStage cp pv tr vol rb = 1 ∨ determineStage cp pv tr vol rb = 2 ∨
      determineStage cp pv tr vol rb = 3 ∨ determineStage cp pv tr vol rb = 4 := by
  simp only [determineStage]
  split_ifs <;> simp

theorem getTrendStrength_or (t : ℚ) :
    getTrendStrength t = "Strong" ∨ getTrendStrength t = "Moderate" ∨
      getTrendStrength t = "Weak" := by
  unfold getTrendStrength
  split_ifs <;> simp

theorem analyzeStage_inv (p : ℚ) (bars : List RawBar) : Winv (analyzeStage p bars) p := by
  simp only [analyzeStage]
  repeat' split
  all_goals simp [Winv]
  all_goals exact ⟨determineStage_cases _ _ _ _ _, getTrendStrength_or _⟩

end Weinstein


theorem endD_cons_cons (a b : α) (t : List α) (d : α) :
    endD (a :: b :: t) d = endD (b :: t) d := rfl

theorem endD_mem (l : List α) (d : α) (h : l ≠ []) : endD l d ∈ l := by
  induction l with
  | nil => simp at h
  | cons a t ih =>
    cases t with
    | nil => simp [endD]
    | cons b u => rw [endD_cons_cons]; exact List.mem_cons_of_mem a (ih (by simp))

theorem endD_drop (l : List α) (k : ℕ) (d : α) (h : k < l.length) :
    endD (l.drop k) d = endD l d := by
  induction l generalizing k with
  | nil => simp at h
  | cons a t ih =>
    cases k with
    | zero => simp
    | succ k =>
      simp only [List.drop_succ_cons]
      rw [ih k (by simpa using h)]
      cases t with
      | nil => simp at h
      | cons b u => rw [endD_cons_cons]

theorem endD_map (f : α → β) (l : List α) (d : α) :
    endD (l.map f) (f d) = f (endD l d) := by
  induction l with
  | nil => rfl
  | cons a t ih =>
    cases t with
    | nil => rfl
    | cons b u =>
      simp only [List.map_cons] at ih ⊢
      rw [endD_cons_cons, endD_cons_cons, ih]

theorem pairwise_le_endD {l : List ℚ} (hp : l.Pairwise (· < ·)) :
    ∀ x ∈ l, x ≤ endD l 0 := by
  induction l with
  | nil => simp
  | cons a t ih =>
    intro x hx
    cases t with
    | nil => simp at hx; simp [hx, endD]
    | cons b u =>
      rw [endD_cons_cons]
      rcases List.mem_cons.mp hx with rfl | hx
      · have hlt := (List.pairwise_cons.mp hp).1
        have hmem : endD (b :: u) 0 ∈ b :: u := endD_mem _ _ (by simp)
        exact le_of_lt (hlt _ hmem)
      · exact ih (List.pairwise_cons.mp hp).2 x hx

theorem headD_lt_endD {l : List ℚ} (hp : l.Pairwise (· < ·)) (h2 : 2 ≤ l.length) :
    l.headD 0 < endD l 0 := by
  cases l with
  | nil => simp at h2
  | cons a t =>
    cases t with
    | nil => simp at h2
    | cons b u =>
      rw [List.headD_cons, endD_cons_cons]
      have hlt := (List.pairwise_cons.mp hp).1
      exact hlt _ (endD_mem _ _ (by simp))

theorem sum_le_length_mul {l : List ℚ} {M : ℚ} (h : ∀ x ∈ l, x ≤ M) :
    l.sum ≤ l.length * M := by
  induction l with
  | nil => simp
  | cons a t ih =>
    simp only [List.sum_cons, List.length_cons]
    have := ih (fun x hx => h x (List.mem_cons_of_mem a hx))
    have ha := h a (List.mem_cons_self a t)
    push_cast
    nlinarith [this, ha]

theorem sum_lt_length_mul {l : List ℚ} {M : ℚ} (h : ∀ x ∈ l, x ≤ M)
    (hx : ∃ x ∈ l, x < M) : l.sum < l.length * M := by
  induction l with
  | nil => simp at hx
  | cons a t ih =>
    simp only [List.sum_cons, List.length_cons]
    rcases hx with ⟨x, hxm, hxlt⟩
    push_cast
    rcases List.mem_cons.mp hxm with hax | hxt
    · subst hax
      have := sum_le_length_mul (fun y hy => h y (List.mem_cons_of_mem x hy))
      nlinarith [this, hxlt]
    · have := ih (fun y hy => h y (List.mem_cons_of_mem a hy)) ⟨x, hxt, hxlt⟩
      have ha := h a (List.mem_cons_self a t)
      nlinarith [this, ha]

theorem lastN_map (k : ℕ) (f : α → β) (xs : List α) :
    (lastN k xs).map f = lastN k (xs.map f) := by
  simp [lastN, List.map_drop]

theorem lastN_length (k : ℕ) (xs : List α) : (lastN k xs).length = min k xs.length := by
  simp [lastN]
  omega


namespace Canslim

theorem gradeFor_lt55 {p : ℚ} (h : p < 55) : gradeFor p = "D" ∨ gradeFor p = "F" := by
  unfold gradeFor
  split_ifs <;> first | (exfalso; linarith) | simp

theorem factorC_FH_none : CanslimFH.factorC none none =
    ⟨0, 15, "N/A - No earnings data (configure Finnhub API)"⟩ := rfl

theorem factorA_FH_none : CanslimFH.factorA none none =
    ⟨0, 15, "N/A - No earnings data (configure Finnhub API)"⟩ := rfl

theorem factorS_FH_none (v : ℚ) (sb : List NBar) : CanslimFH.factorS none none v sb =
    ⟨0, 10, "N/A - No shares data (configure Finnhub API)"⟩ := rfl

theorem mkScore_totalScore (scs : Scores) :
    (mkScore scs).totalScore = scs.c.score + scs.a.score + scs.n.score + scs.s.score +
      scs.l.score + scs.i.score + scs.m.score := rfl

theorem mkScore_scores (scs : Scores) : (mkScore scs).scores = scs := rfl

theorem mkScore_overallGrade (scs : Scores) :
    (mkScore scs).overallGrade =
      gradeFor ((scs.c.score + scs.a.score + scs.n.score + scs.s.score + scs.l.score +
          scs.i.score + scs.m.score) /
        (scs.c.maxScore + scs.a.maxScore + scs.n.maxScore + scs.s.maxScore + scs.l.maxScore +
          scs.i.maxScore + scs.m.maxScore) * 100) := rfl

theorem mkScore_grade_DF (scs : Scores) (hinv : ScoresInv scs)
    (h : scs.c.score + scs.a.score + scs.n.score + scs.s.score + scs.l.score +
      scs.i.score + scs.m.score ≤ 35) :
    (mkScore scs).overallGrade = "D" ∨ (mkScore scs).overallGrade = "F" := by
  obtain ⟨⟨hc, -⟩, ⟨ha, -⟩, ⟨hn, -⟩, ⟨hs, -⟩, ⟨hl, -⟩, ⟨hi, -⟩, ⟨hm, -⟩⟩ := hinv
  rw [mkScore_overallGrade, hc, ha, hn, hs, hl, hi, hm]
  apply gradeFor_lt55
  rw [show (15 : ℚ) + 15 + 15 + 10 + 10 + 10 + 10 = 85 by norm_num, div_mul_eq_mul_div,
    div_lt_iff₀ (by norm_num : (0 : ℚ) < 85)]
  linarith

theorem FH_main_no_fund (price volume : ℚ) (sb : List NBar) :
    (mkScore ⟨CanslimFH.factorC none none, CanslimFH.factorA none none,
        CanslimFH.factorN none price sb, CanslimFH.factorS none none volume sb,
        CanslimFH.factorL none sb, ⟨0, 10, "N/A - Institutional data requires premium API"⟩,
        CanslimFH.factorM none sb⟩).totalScore ≤ 35 ∧
      ((mkScore ⟨CanslimFH.factorC none none, CanslimFH.factorA none none,
          CanslimFH.factorN none price sb, CanslimFH.factorS none none volume sb,
          CanslimFH.factorL none sb, ⟨0, 10, "N/A - Institutional data requires premium API"⟩,
          CanslimFH.factorM none sb⟩).overallGrade = "D" ∨
        (mkScore ⟨CanslimFH.factorC none none, CanslimFH.factorA none none,
          CanslimFH.factorN none price sb, CanslimFH.factorS none none volume sb,
          CanslimFH.factorL none sb, ⟨0, 10, "N/A - Institutional data requires premium API"⟩,
          CanslimFH.factorM none sb⟩).overallGrade = "F") := by
  obtain ⟨-, hn0, hn1⟩ := fsinv_factorN_FH none price sb
  obtain ⟨-, hl0, hl1⟩ := fsinv_factorL_FH none sb
  obtain ⟨-, hm0, hm1⟩ := fsinv_factorM_FH none sb
  have h35 : (CanslimFH.factorC none none).score + (CanslimFH.factorA none none).score +
      (CanslimFH.factorN none price sb).score + (CanslimFH.factorS none none volume sb).score +
      (CanslimFH.factorL none sb).score +
      (FactorScore.mk 0 10 "N/A - Institutional data requires premium API").score +
      (CanslimFH.factorM none sb).score ≤ 35 := by
    rw [factorC_FH_none, factorA_FH_none, factorS_FH_none]
    simp only []
    linarith
  refine ⟨le_trans (le_of_eq (mkScore_totalScore _)) h35, ?_⟩
  refine mkScore_grade_DF _ ⟨?_, ?_, fsinv_factorN_FH none price sb, ?_,
    fsinv_factorL_FH none sb, by simp [FSinv], fsinv_factorM_FH none sb⟩ h35
  · rw [factorC_FH_none]; simp [FSinv]
  · rw [factorA_FH_none]; simp [FSinv]
  · rw [factorS_FH_none]; simp [FSinv]

end Canslim

/-- C10: with no fundamental data of either kind supplied to the
Finnhub-aware scorer, factors C, A, S and I each score exactly 0, so the
total score is at most 35 of 85 and the overall grade is D or F. -/
theorem C10_no_fundamentals (price : ℚ) (bars : List RawBar) (volume : ℚ) :
    (CanslimFH.calculateScore price bars volume none none).scores.c.score = 0 ∧
      (CanslimFH.calculateScore price bars volume none none).scores.a.score = 0 ∧
      (CanslimFH.calculateScore price bars volume none none).scores.s.score = 0 ∧
      (CanslimFH.calculateScore price bars volume none none).scores.i.score = 0 ∧
      (CanslimFH.calculateScore price bars volume none none).totalScore ≤ 35 ∧
      ((CanslimFH.calculateScore price bars volume none none).overallGrade = "D" ∨
        (CanslimFH.calculateScore price bars volume none none).overallGrade = "F") := by
  simp only [CanslimFH.calculateScore]
  split
  · exact ⟨rfl, rfl, rfl, rfl, by norm_num [Canslim.getDefaultScore], Or.inr rfl⟩
  split
  · exact ⟨rfl, rfl, rfl, rfl, by norm_num [Canslim.getDefaultScore], Or.inr rfl⟩
  exact ⟨rfl, rfl, rfl, rfl, (Canslim.FH_main_no_fund price volume _).1,
    (Canslim.FH_main_no_fund price volume _).2⟩


/-- C6: the scoring and stage-classification operations are total: for
every input (arbitrary bar-like records with possibly missing/NaN numeric
fields, any rational current price and volume) the Finnhub-aware
`calculateScore` returns a fully populated well-formed CANSLIM record
(fixed maxima 15/15/15/10/10/10/10, every score within range, total equal
to the sum of the seven scores, max total 85, grade among A/B/C/D/F) and
`analyzeStage` returns a fully populated stage record (stage among 1-4,
the input price echoed back, trend and volatility labels from their fixed
vocabularies).  Both embeddings are total Lean functions; every partial
operation of the source (indexing, division, reduce) sits behind the same
guards modelled here, so no exception path exists. -/
theorem C6_totality (price : ℚ) (bars : List RawBar) (volume : ℚ)
    (fund : Option Canslim.Fundamentals) (fh : Option Canslim.FinnhubFundamentals) :
    Canslim.CANSLIMinv (CanslimFH.calculateScore price bars volume fund fh) ∧
      Weinstein.Winv (Weinstein.analyzeStage price bars) price :=
  ⟨Canslim.calculateScoreFH_inv price bars volume fund fh,
   Weinstein.analyzeStage_inv price bars⟩

/-- C7: for every input (the default no-data record included), the
returned total score equals the sum of the seven factor scores, the seven
factor maxima sum to 85, and maxTotalScore equals 85. -/
theorem C7_sum_invariant (price : ℚ) (bars : List RawBar) (volume : ℚ)
    (fund : Option Canslim.Fundamentals) (fh : Option Canslim.FinnhubFundamentals) :
    (CanslimFH.calculateScore price bars volume fund fh).totalScore =
        (CanslimFH.calculateScore price bars volume fund fh).scores.c.score +
        (CanslimFH.calculateScore price bars volume fund fh).scores.a.score +
        (CanslimFH.calculateScore price bars volume fund fh).scores.n.score +
        (CanslimFH.calculateScore price bars volume fund fh).scores.s.score +
        (CanslimFH.calculateScore price bars volume fund fh).scores.l.score +
        (CanslimFH.calculateScore price bars volume fund fh).scores.i.score +
        (CanslimFH.calculateScore price bars volume fund fh).scores.m.score ∧
      (CanslimFH.calculateScore price bars volume fund fh).scores.c.maxScore +
        (CanslimFH.calculateScore price bars volume fund fh).scores.a.maxScore +
        (CanslimFH.calculateScore price bars volume fund fh).scores.n.maxScore +
        (CanslimFH.calculateScore price bars volume fund fh).scores.s.maxScore +
        (CanslimFH.calculateScore price bars volume fund fh).scores.l.maxScore +
        (CanslimFH.calculateScore price bars volume fund fh).scores.i.maxScore +
        (CanslimFH.calculateScore price bars volume fund fh).scores.m.maxScore = 85 ∧
      (CanslimFH.calculateScore price bars volume fund fh).maxTotalScore = 85 := by
  obtain ⟨hs, ht, hm, -⟩ := Canslim.calculateScoreFH_inv price bars volume fund fh
  obtain ⟨⟨hc, -⟩, ⟨ha, -⟩, ⟨hn, -⟩, ⟨hsx, -⟩, ⟨hl, -⟩, ⟨hi, -⟩, ⟨hmd, -⟩⟩ := hs
  refine ⟨ht, ?_, hm⟩
  rw [hc, ha, hn, hsx, hl, hi, hmd]
  norm_num

/-- C9: an empty input bar series yields the default score record: grade
F, total score 0, every factor description the explanatory no-data text;
and the stage classifier returns the Insufficient Data record with zeroed
moving average and priceVsMA. -/
theorem C9_empty_series (price volume : ℚ) (fund : Option Canslim.Fundamentals)
    (fh : Option Canslim.FinnhubFundamentals) :
    (CanslimFH.calculateScore price [] volume fund fh).overallGrade = "F" ∧
      (CanslimFH.calculateScore price [] volume fund fh).totalScore = 0 ∧
      (CanslimFH.calculateScore price [] volume fund fh).scores.c.description =
        "No historical data available" ∧
      (CanslimFH.calculateScore price [] volume fund fh).scores.a.description =
        "No historical data available" ∧
      (CanslimFH.calculateScore price [] volume fund fh).scores.n.description =
        "No historical data available" ∧
      (CanslimFH.calculateScore price [] volume fund fh).scores.s.description =
        "No historical data available" ∧
      (CanslimFH.calculateScore price [] volume fund fh).scores.l.description =
        "No historical data available" ∧
      (CanslimFH.calculateScore price [] volume fund fh).scores.i.description =
        "No historical data available" ∧
      (CanslimFH.calculateScore price [] volume fund fh).scores.m.description =
        "No historical data available" ∧
      Weinstein.analyzeStage price [] =
        ⟨1, "Insufficient Data", "No historical data available for stage analysis",
          0, price, 0, "Weak", "Low"⟩ :=
  ⟨rfl, rfl, rfl, rfl, rfl, rfl, rfl, rfl, rfl, rfl⟩


/-- C5 counterexample: a bar with a valid close but NaN open/high/low and
volume is repaired in place — after the filter runs, the caller's record
has changed (open/high/low overwritten with the close, volume with 0), so
normalization is not side-effect free as claimed. -/
theorem C5_counterexample :
    (Canslim.filterRepair [⟨none, none, none, some 5, none, none⟩]).1 ≠
      [⟨none, none, none, some 5, none, none⟩] := by
  norm_num [Canslim.filterRepair, Canslim.validClose, Canslim.repairRaw]
  exact fun hc => absurd hc (Option.some_ne_none _)

/-- C5 amended: the normalizing filter mutates the caller's bar records in
place.  The array after the call maps each bar with a valid close to its
repaired record and leaves invalid-close bars untouched; on a valid bar a
missing open is overwritten with the close and a missing volume with 0;
and a bar whose fields are all present with nonnegative volume is left
unchanged. -/
theorem C5_mutation :
    (∀ bars : List RawBar, (Canslim.filterRepair bars).1 =
        bars.map (fun b => if Canslim.validClose b then Canslim.repairRaw b else b)) ∧
      (∀ b : RawBar, Canslim.validClose b → b.o = none → (Canslim.repairRaw b).o = b.c) ∧
      (∀ b : RawBar, Canslim.validClose b → b.v = none → (Canslim.repairRaw b).v = some 0) ∧
      (∀ b : RawBar, b.o ≠ none → b.h ≠ none → b.l ≠ none →
        (∀ x : ℚ, b.v = some x → 0 ≤ x) → b.v ≠ none → Canslim.repairRaw b = b) := by
  refine ⟨?_, ?_, ?_, ?_⟩
  · intro bars
    induction bars with
    | nil => rfl
    | cons b t ih =>
      simp only [Canslim.filterRepair, List.map_cons]
      split <;> simp [ih]
  · intro b hb ho
    simp [Canslim.repairRaw, ho]
  · intro b hb hv
    simp [Canslim.repairRaw, hv]
  · rintro ⟨o, h, l, c, v, t⟩ ho hh hl hv hvn
    cases v with
    | none => simp at hvn
    | some x =>
      have hx : ¬ x < 0 := not_lt.mpr (hv x rfl)
      simp_all [Canslim.repairRaw]

/-- C5 witness: the amended theorem applied at the concrete bar of the
counterexample. -/
theorem C5_mutation_witness :
    (Canslim.filterRepair [⟨none, none, none, some 5, none, none⟩]).1 =
        [⟨some 5, some 5, some 5, some 5, some 0, none⟩] ∧
      (Canslim.repairRaw ⟨none, none, none, some 5, none, none⟩).o = some 5 := by
  constructor
  · rw [C5_mutation.1 [⟨none, none, none, some 5, none, none⟩]]
    norm_num [Canslim.validClose, Canslim.repairRaw]
  · exact C5_mutation.2.1 ⟨none, none, none, some 5, none, none⟩
      (by norm_num [Canslim.validClose]) rfl


namespace Canslim

/-- The factor-C proxy grading thresholds as the spec states them
(>=25 -> 15, >=15 -> 12, >=5 -> 8, >=0 -> 5, otherwise 2), written
independently of the embedding for the refinement comparison. -/
def momentumTier (g : ℚ) : ℚ :=
  if 25 ≤ g then 15 else if 15 ≤ g then 12 else if 5 ≤ g then 8 else if 0 ≤ g then 5 else 2

theorem isEmpty_false_of_valid {bars : List RawBar} (h : (filterRepair bars).2 ≠ []) :
    bars.isEmpty = false := by
  cases bars with
  | nil => simp [filterRepair] at h
  | cons b t => rfl

theorem scoreCQE_tier (bs : List NBar) (h2 : 2 ≤ (lastN 60 bs).length)
    (h0 : ((lastN 60 bs).headD dBar).c ≠ 0) :
    (scoreCurrentQuarterlyEarnings bs).score =
      momentumTier (((endD (lastN 60 bs) dBar).c - ((lastN 60 bs).headD dBar).c) /
        ((lastN 60 bs).headD dBar).c * 100) := by
  unfold scoreCurrentQuarterlyEarnings
  split
  · rename_i heq
    rw [heq] at h2; simp at h2
  · rename_i heq
    rw [heq] at h2; simp at h2
  · rename_i b0 b1 tl heq
    rw [heq] at h0 ⊢
    simp only [List.headD_cons] at h0 ⊢
    rw [if_neg h0]
    simp only [momentumTier]
    split_ifs <;> rfl

end Canslim

/-- C1 amended: with no fundamental data, only the Alpha-Vantage-aware
scorer (part_009) falls back to the ~60-bar price-momentum proxy for
factor C, graded by the spec thresholds; the Finnhub-aware scorer
(part_010) instead returns the zero N/A factor. -/
theorem C1_proxy_fallback (price volume : ℚ) (bars : List RawBar)
    (h : (Canslim.filterRepair bars).2 ≠ []) :
    (CanslimAV.calculateScore price bars volume none).scores.c =
        Canslim.scoreCurrentQuarterlyEarnings (Canslim.normalizedSortedBars bars) ∧
      (CanslimFH.calculateScore price bars volume none none).scores.c =
        ⟨0, 15, "N/A - No earnings data (configure Finnhub API)"⟩ ∧
      (∀ bs : List NBar, 2 ≤ (lastN 60 bs).length → ((lastN 60 bs).headD dBar).c ≠ 0 →
        (Canslim.scoreCurrentQuarterlyEarnings bs).score =
          Canslim.momentumTier (((endD (lastN 60 bs) dBar).c - ((lastN 60 bs).headD dBar).c) /
            ((lastN 60 bs).headD dBar).c * 100)) := by
  have hbe := Canslim.isEmpty_false_of_valid h
  have hve : (((Canslim.filterRepair bars).2).map Canslim.toBar).isEmpty = false := by
    simp [List.isEmpty_iff, h]
  refine ⟨?_, ?_, Canslim.scoreCQE_tier⟩
  · simp only [CanslimAV.calculateScore, hbe, hve, Bool.false_eq_true, if_false,
      Canslim.normalizedSortedBars]
    rfl
  · simp only [CanslimFH.calculateScore, hbe, hve, Bool.false_eq_true, if_false]
    rfl

/-- C1 witness: the amended theorem applied to a concrete two-bar rising
series with no fundamentals. -/
theorem C1_proxy_fallback_witness :
    (CanslimAV.calculateScore 13 [⟨some 9, some 10, some 9, some 10, some 100, none⟩,
        ⟨some 12, some 13, some 12, some 13, some 100, none⟩] 0 none).scores.c =
      Canslim.scoreCurrentQuarterlyEarnings (Canslim.normalizedSortedBars
        [⟨some 9, some 10, some 9, some 10, some 100, none⟩,
         ⟨some 12, some 13, some 12, some 13, some 100, none⟩]) :=
  (C1_proxy_fallback 13 0
    [⟨some 9, some 10, some 9, some 10, some 100, none⟩,
     ⟨some 12, some 13, some 12, some 13, some 100, none⟩]
    (by norm_num [Canslim.filterRepair, Canslim.validClose]; exact List.cons_ne_nil _ _)).1

/-- C1 counterexample: on the same non-empty series with no fundamentals,
the Finnhub-aware scorer returns the zero N/A factor C, while the
price-momentum proxy would have scored 15 — so factor C is not scored by
the proxy in that scorer. -/
theorem C1_counterexample :
    (CanslimFH.calculateScore 13 [⟨some 9, some 10, some 9, some 10, some 100, none⟩,
        ⟨some 12, some 13, some 12, some 13, some 100, none⟩] 0 none none).scores.c =
        ⟨0, 15, "N/A - No earnings data (configure Finnhub API)"⟩ ∧
      (CanslimAV.calculateScore 13 [⟨some 9, some 10, some 9, some 10, some 100, none⟩,
        ⟨some 12, some 13, some 12, some 13, some 100, none⟩] 0 none).scores.c.score = 15 := by
  constructor
  · norm_num [CanslimFH.calculateScore, Canslim.filterRepair, Canslim.validClose,
      Canslim.repairRaw, Canslim.toBar, CanslimFH.factorC, Canslim.mkScore]
  · norm_num [CanslimAV.calculateScore, Canslim.filterRepair, Canslim.validClose,
      Canslim.repairRaw, Canslim.toBar, CanslimAV.factorC, Canslim.mkScore,
      Canslim.scoreCurrentQuarterlyEarnings, lastN, endD, Canslim.gradeFor]


/-- C2 amended: on the Alpha-Vantage reported-EPS path a quarterly growth
of exactly 25.0% scores 15/15 and 24.99% scores 12/15; on the Finnhub
metric path the helper gradeEarningsGrowth instead gives 14/15 at 25.0%
(top tier 15 starts at 40%) and 11/15 at 24.99%. -/
theorem C2_eps_thresholds :
    (∀ (ed : Canslim.EarningsData) (d1 d2 : String) (e1 e2 : ℚ)
        (rest : List Canslim.EpsRecord),
      ed.quarterlyEarnings = ⟨d1, some e1⟩ :: ⟨d2, some e2⟩ :: rest → e2 ≠ 0 →
      (25 ≤ (e1 - e2) / |e2| * 100 →
        (Canslim.scoreCurrentQuarterlyEarningsWithData ed).score = 15) ∧
      (15 ≤ (e1 - e2) / |e2| * 100 → (e1 - e2) / |e2| * 100 < 25 →
        (Canslim.scoreCurrentQuarterlyEarningsWithData ed).score = 12)) ∧
    (∀ (fm : Canslim.FinnhubMetric) (fe : Option Canslim.FinnhubEarnings),
      fm.epsGrowthQuarterlyYoy = some 25 →
      (Canslim.scoreCurrentQuarterlyEarningsWithFinnhub fm fe).score = 14) ∧
    (∀ (fm : Canslim.FinnhubMetric) (fe : Option Canslim.FinnhubEarnings),
      fm.epsGrowthQuarterlyYoy = some (2499 / 100) →
      (Canslim.scoreCurrentQuarterlyEarningsWithFinnhub fm fe).score = 11) ∧
    (∀ (price volume : ℚ) (bars : List RawBar) (ed : Canslim.EarningsData),
      (Canslim.filterRepair bars).2 ≠ [] →
      (CanslimAV.calculateScore price bars volume (some ⟨some ed, none⟩)).scores.c =
        Canslim.scoreCurrentQuarterlyEarningsWithData ed) := by
  refine ⟨?_, ?_, ?_, ?_⟩
  · intro ed d1 d2 e1 e2 rest hq h2
    unfold Canslim.scoreCurrentQuarterlyEarningsWithData
    rw [hq]
    dsimp only
    rw [if_neg h2]
    constructor
    · intro hg
      rw [if_pos hg]
    · intro hg hlt
      rw [if_neg (by linarith), if_pos hg]
  · intro fm fe hm
    unfold Canslim.scoreCurrentQuarterlyEarningsWithFinnhub
    rw [hm]
    norm_num [Canslim.gradeEarningsGrowth, jsRound, Int.floor_eq_iff]
  · intro fm fe hm
    unfold Canslim.scoreCurrentQuarterlyEarningsWithFinnhub
    rw [hm]
    norm_num [Canslim.gradeEarningsGrowth, jsRound, Int.floor_eq_iff]
  · intro price volume bars ed h
    have hbe := Canslim.isEmpty_false_of_valid h
    have hve : (((Canslim.filterRepair bars).2).map Canslim.toBar).isEmpty = false := by
      simp [List.isEmpty_iff, h]
    simp only [CanslimAV.calculateScore, hbe, hve, Bool.false_eq_true, if_false]
    rfl

/-- C2 witness: the amended theorem at concrete EPS pairs (1.25 vs 1.00:
exactly 25.0% growth; 1.2499 vs 1.00: 24.99%) and at a Finnhub metric
carrying exactly 25. -/
theorem C2_eps_thresholds_witness :
    (Canslim.scoreCurrentQuarterlyEarningsWithData
        ⟨[⟨"2024-03-31", some 1.25⟩, ⟨"2023-12-31", some 1⟩], []⟩).score = 15 ∧
      (Canslim.scoreCurrentQuarterlyEarningsWithData
        ⟨[⟨"2024-03-31", some 1.2499⟩, ⟨"2023-12-31", some 1⟩], []⟩).score = 12 ∧
      (Canslim.scoreCurrentQuarterlyEarningsWithFinnhub
        ⟨some 25, none, none, none, none, none, none, none, none⟩ none).score = 14 := by
  refine ⟨?_, ?_, ?_⟩
  · exact ((C2_eps_thresholds.1 _ "2024-03-31" "2023-12-31" 1.25 1 [] rfl (by norm_num)).1
      (by norm_num))
  · exact ((C2_eps_thresholds.1 _ "2024-03-31" "2023-12-31" 1.2499 1 [] rfl (by norm_num)).2
      (by norm_num) (by norm_num))
  · exact C2_eps_thresholds.2.1 _ none rfl

/-- C2 counterexample: a scoring call whose resolved snapshot carries a
quarterly EPS growth of exactly 25.0% (the Finnhub metric path) yields
factor C score 14, not the claimed 15. -/
theorem C2_counterexample :
    (CanslimFH.calculateScore 100 [⟨some 9, some 10, some 9, some 10, some 0, none⟩] 0 none
        (some ⟨none, some ⟨some 25, none, none, none, none, none, none, none, none⟩,
          none⟩)).scores.c.score = 14 := by
  norm_num [CanslimFH.calculateScore, Canslim.filterRepair, Canslim.validClose,
    Canslim.repairRaw, Canslim.toBar, CanslimFH.factorC, Canslim.mkScore,
    Canslim.scoreCurrentQuarterlyEarningsWithFinnhub, Canslim.gradeEarningsGrowth,
    jsRound, Int.floor_eq_iff]


/-- C8 amended: factor I never uses institutional data.  In the
Finnhub-aware scorer it always scores 0 and, whenever any valid bar
exists, is the constant N/A record; in the Alpaca/Alpha-Vantage variants
it is the count of trailing-window days with volume above 1.5 times the
window average, graded against thresholds ceil(8s), ceil(5s), ceil(3s)
with s = availableBars/20, and its description is one of seven fixed tier
strings, none of which flags the result as an approximation. -/
theorem C8_institutional :
    (∀ (price : ℚ) (bars : List RawBar) (volume : ℚ) (fund : Option Canslim.Fundamentals)
        (fh : Option Canslim.FinnhubFundamentals),
      (CanslimFH.calculateScore price bars volume fund fh).scores.i.score = 0) ∧
    (∀ (price : ℚ) (bars : List RawBar) (volume : ℚ) (fund : Option Canslim.Fundamentals)
        (fh : Option Canslim.FinnhubFundamentals), (Canslim.filterRepair bars).2 ≠ [] →
      (CanslimFH.calculateScore price bars volume fund fh).scores.i =
        ⟨0, 10, "N/A - Institutional data requires premium API"⟩) ∧
    (∀ (volume : ℚ) (bars rb : List NBar) (avg : ℚ) (hvd : ℕ),
      rb = (lastN 20 bars).filter (fun b => 0 ≤ b.v) → rb ≠ [] →
      avg = ((rb.map (fun b => b.v)).sum) / (rb.length : ℚ) → avg ≠ 0 →
      hvd = rb.countP (fun b => avg * 1.5 < b.v) →
      (Canslim.scoreInstitutionalSponsorship volume bars).score =
        (if jsCeil (8 * ((rb.length : ℚ) / 20)) ≤ (hvd : ℚ) ∧ avg < volume then 10
         else if jsCeil (5 * ((rb.length : ℚ) / 20)) ≤ (hvd : ℚ) then 8
         else if jsCeil (3 * ((rb.length : ℚ) / 20)) ≤ (hvd : ℚ) then 6
         else 3)) ∧
    (∀ (volume : ℚ) (bars : List NBar),
      (Canslim.scoreInstitutionalSponsorship volume bars).description ∈
        (["Insufficient data", "No valid volume data", "Zero average volume",
          "Strong institutional interest", "Moderate institutional activity",
          "Some institutional interest", "Limited institutional sponsorship"] : List String)) := by
  refine ⟨?_, ?_, ?_, ?_⟩
  · intro price bars volume fund fh
    simp only [CanslimFH.calculateScore]
    split
    · rfl
    split
    · rfl
    rfl
  · intro price bars volume fund fh h
    have hbe := Canslim.isEmpty_false_of_valid h
    have hve : (((Canslim.filterRepair bars).2).map Canslim.toBar).isEmpty = false := by
      simp [List.isEmpty_iff, h]
    simp only [CanslimFH.calculateScore, hbe, hve, Bool.false_eq_true, if_false]
    rfl
  · intro volume bars rb avg hvd hrb hne havg h0 hh
    subst hrb havg hh
    have hb1 : ¬ bars.length < 1 := by
      rcases bars with - | ⟨b, t⟩
      · simp [lastN] at hne
      · simp
    unfold Canslim.scoreInstitutionalSponsorship
    rw [if_neg hb1, if_neg (by simpa [List.isEmpty_iff] using hne), if_neg h0,
      List.countP_eq_length_filter]
    dsimp only
    split_ifs <;> rfl
  · intro volume bars
    unfold Canslim.scoreInstitutionalSponsorship
    dsimp only
    repeat' split
    all_goals simp

/-- C8 witness: the amended theorem at a concrete two-bar series (volumes
10 and 100, call volume 100): the proxy scorer grades the single
high-volume day against ceil-scaled thresholds and scores 10 with a fixed
tier description, while the Finnhub-aware scorer returns the constant N/A
factor. -/
theorem C8_institutional_witness :
    (CanslimFH.calculateScore 13 [⟨some 9, some 10, some 9, some 10, some 10, none⟩,
        ⟨some 12, some 13, some 12, some 13, some 100, none⟩] 100 none none).scores.i =
      ⟨0, 10, "N/A - Institutional data requires premium API"⟩ := by
  exact C8_institutional.2.1 13 _ 100 none none
    (by norm_num [Canslim.filterRepair, Canslim.validClose]; exact List.cons_ne_nil _ _)

/-- C8 counterexample: for the same scoring input, the Finnhub-aware
scorer's factor I is the hard-coded zero N/A record (not a high-volume-day
count), while the count-based proxy would score 10, and even the proxy's
description ("Strong institutional interest") carries no
approximation marker. -/
theorem C8_counterexample :
    (CanslimFH.calculateScore 13 [⟨some 9, some 10, some 9, some 10, some 10, none⟩,
        ⟨some 12, some 13, some 12, some 13, some 100, none⟩] 100 none none).scores.i.score = 0 ∧
      (Canslim.scoreInstitutionalSponsorship 100
        [⟨9, 10, 9, 10, 10, none⟩, ⟨12, 13, 12, 13, 100, none⟩]) =
        ⟨10, 10, "Strong institutional interest"⟩ := by
  constructor
  · norm_num [CanslimFH.calculateScore, Canslim.filterRepair, Canslim.validClose,
      Canslim.repairRaw, Canslim.toBar, Canslim.mkScore]
  · have hc : (⌈(4 : ℚ) / 5⌉ : ℤ) = 1 := Int.ceil_eq_iff.mpr (by norm_num)
    norm_num [Canslim.scoreInstitutionalSponsorship, lastN, jsCeil, hc]


/-- C3 counterexample: the spec example series of exactly 5 bars with
closes [10, 10.5, 11, 11.5, 12], every bar an up-day and none carrying a
timestamp, does not take the Limited Data path (that path requires fewer
than 5 valid bars): the classifier runs the full rule set, the 5-bar
series leaves the 10-bar moving average unavailable (0), and the result is
Stage 1 "(Estimated)" with priceVsMA exactly 0 — not a Stage 2
"(Limited Data)" result with positive priceVsMA. -/
theorem C3_counterexample :
    (Weinstein.analyzeStage 12
        [⟨some 9.5, some 10, some 10, some 10, some 0, none⟩,
         ⟨some 10, some 10.5, some 10.5, some 10.5, some 0, none⟩,
         ⟨some 10.5, some 11, some 11, some 11, some 0, none⟩,
         ⟨some 11, some 11.5, some 11.5, some 11.5, some 0, none⟩,
         ⟨some 11.5, some 12, some 12, some 12, some 0, none⟩]).stage = 1 ∧
      (Weinstein.analyzeStage 12
        [⟨some 9.5, some 10, some 10, some 10, some 0, none⟩,
         ⟨some 10, some 10.5, some 10.5, some 10.5, some 0, none⟩,
         ⟨some 10.5, some 11, some 11, some 11, some 0, none⟩,
         ⟨some 11, some 11.5, some 11.5, some 11.5, some 0, none⟩,
         ⟨some 11.5, some 12, some 12, some 12, some 0, none⟩]).stageName =
        "Stage 1: Accumulation (Estimated)" ∧
      (Weinstein.analyzeStage 12
        [⟨some 9.5, some 10, some 10, some 10, some 0, none⟩,
         ⟨some 10, some 10.5, some 10.5, some 10.5, some 0, none⟩,
         ⟨some 10.5, some 11, some 11, some 11, some 0, none⟩,
         ⟨some 11, some 11.5, some 11.5, some 11.5, some 0, none⟩,
         ⟨some 11.5, some 12, some 12, some 12, some 0, none⟩]).priceVsMA = 0 := by
  refine ⟨?_, ?_, ?_⟩ <;>
    norm_num [Weinstein.analyzeStage, Weinstein.wvalid, Weinstein.cval,
      Weinstein.calculate30WeekMA, Weinstein.calculateVolatilitySq, Weinstein.returnsOf,
      Weinstein.analyzeTrend, Weinstein.getTrendStrength, Weinstein.determineStage,
      Weinstein.maxHigh, Weinstein.getStageName, Weinstein.upDay, Weinstein.downDay,
      lastN, stableSortBy, maxList, endD]
  all_goals decide

/-- C3 amended: the Limited Data path covers 1 to 4 usable bars.  On the
first four bars of the spec example (closes [10, 10.5, 11, 11.5], all
up-days, no timestamps) with the last close 11.5 as current price, the
classifier returns Stage 2 labelled "(Limited Data)" with priceVsMA
strictly positive. -/
theorem C3_limited_data :
    (Weinstein.analyzeStage 11.5
        [⟨some 9.5, some 10, some 10, some 10, some 0, none⟩,
         ⟨some 10, some 10.5, some 10.5, some 10.5, some 0, none⟩,
         ⟨some 10.5, some 11, some 11, some 11, some 0, none⟩,
         ⟨some 11, some 11.5, some 11.5, some 11.5, some 0, none⟩]).stage = 2 ∧
      (Weinstein.analyzeStage 11.5
        [⟨some 9.5, some 10, some 10, some 10, some 0, none⟩,
         ⟨some 10, some 10.5, some 10.5, some 10.5, some 0, none⟩,
         ⟨some 10.5, some 11, some 11, some 11, some 0, none⟩,
         ⟨some 11, some 11.5, some 11.5, some 11.5, some 0, none⟩]).stageName =
        "Stage 2: Advancing (Limited Data)" ∧
      0 < (Weinstein.analyzeStage 11.5
        [⟨some 9.5, some 10, some 10, some 10, some 0, none⟩,
         ⟨some 10, some 10.5, some 10.5, some 10.5, some 0, none⟩,
         ⟨some 10.5, some 11, some 11, some 11, some 0, none⟩,
         ⟨some 11, some 11.5, some 11.5, some 11.5, some 0, none⟩]).priceVsMA := by
  refine ⟨?_, ?_, ?_⟩ <;>
    norm_num [Weinstein.analyzeStage, Weinstein.wvalid, Weinstein.cval]


theorem headD_mem (l : List α) (d : α) (h : l ≠ []) : l.headD d ∈ l := by
  cases l with
  | nil => simp at h
  | cons a t => simp

/-- C4 amended: a strictly monotonically increasing close series of
length at least 30 (positive closes, no timestamps) is classified Stage 2
when additionally — as the code requires — the trailing-30-bar trend
exceeds 2% and the up-days in that window exceed 1.2 times the down-days;
the current price is the last close. -/
theorem C4_stage2 (bars : List RawBar)
    (h30 : 30 ≤ bars.length)
    (hno : ∀ b ∈ bars, b.t = none)
    (hval : ∀ b ∈ bars, ∃ q : ℚ, b.c = some q ∧ 0 < q)
    (hmono : (bars.map Weinstein.cval).Chain' (· < ·))
    (htrend : 2 < Weinstein.analyzeTrend (lastN 30 bars))
    (hup : ((((lastN 30 bars).filter Weinstein.downDay).length : ℚ) * 1.2 <
      (((lastN 30 bars).filter Weinstein.upDay).length : ℚ))) :
    (Weinstein.analyzeStage (Weinstein.cval (endD bars dRaw)) bars).stage = 2 := by
  have hbne : bars ≠ [] := by
    intro hn; rw [hn] at h30; simp at h30
  have hfilter : bars.filter Weinstein.wvalid = bars := by
    apply List.filter_eq_self.mpr
    intro b hb
    obtain ⟨q, hc, hq⟩ := hval b hb
    simp [Weinstein.wvalid, hc, hq]
  have hisE : bars.isEmpty = false := by
    cases bars with
    | nil => exact absurd rfl hbne
    | cons b t => rfl
  have hallt : (bars.all fun b => b.t.isSome) = false := by
    cases bars with
    | nil => exact absurd rfl hbne
    | cons b t =>
      have hb := hno b (List.mem_cons_self b t)
      simp [List.all_cons, hb]
  have hpw : (bars.map Weinstein.cval).Pairwise (· < ·) := List.chain'_iff_pairwise.mp hmono
  -- the moving-average window, as a list of closes
  have hMlen : (bars.map Weinstein.cval).length = bars.length := List.length_map _ _
  have hLpw : (lastN 150 (bars.map Weinstein.cval)).Pairwise (· < ·) :=
    List.Pairwise.sublist (by unfold lastN; exact List.drop_sublist _ _) hpw
  have hLlen : (lastN 150 (bars.map Weinstein.cval)).length =
      min 150 (bars.map Weinstein.cval).length := lastN_length _ _
  have h2L : 2 ≤ (lastN 150 (bars.map Weinstein.cval)).length := by
    rw [hLlen, hMlen]; omega
  have hLne : lastN 150 (bars.map Weinstein.cval) ≠ [] := by
    intro hn
    rw [hn] at h2L; simp at h2L
  have hLpos : ∀ x ∈ lastN 150 (bars.map Weinstein.cval), 0 < x := by
    intro x hx
    have hxM : x ∈ bars.map Weinstein.cval :=
      List.Sublist.subset (by unfold lastN; exact List.drop_sublist _ _) hx
    obtain ⟨b, hb, rfl⟩ := List.mem_map.mp hxM
    obtain ⟨q, hc, hq⟩ := hval b hb
    simpa [Weinstein.cval, hc] using hq
  have hpM : endD (bars.map Weinstein.cval) 0 = Weinstein.cval (endD bars dRaw) := by
    have h := endD_map Weinstein.cval bars dRaw
    simpa [Weinstein.cval, dRaw] using h
  have hLlast : endD (lastN 150 (bars.map Weinstein.cval)) 0 = endD (bars.map Weinstein.cval) 0 := by
    unfold lastN
    exact endD_drop _ _ _ (by omega)
  have hle : ∀ x ∈ lastN 150 (bars.map Weinstein.cval),
      x ≤ endD (lastN 150 (bars.map Weinstein.cval)) 0 := pairwise_le_endD hLpw
  have hlt := headD_lt_endD hLpw h2L
  have hsumlt : (lastN 150 (bars.map Weinstein.cval)).sum <
      (lastN 150 (bars.map Weinstein.cval)).length *
        endD (lastN 150 (bars.map Weinstein.cval)) 0 :=
    sum_lt_length_mul hle ⟨_, headD_mem _ 0 hLne, hlt⟩
  have hsumpos : 0 < (lastN 150 (bars.map Weinstein.cval)).sum :=
    List.sum_pos _ hLpos hLne
  have hlenpos : (0 : ℚ) < (lastN 150 (bars.map Weinstein.cval)).length := by
    have : 0 < (lastN 150 (bars.map Weinstein.cval)).length := by omega
    exact_mod_cast this
  have hma : Weinstein.calculate30WeekMA bars =
      (lastN 150 (bars.map Weinstein.cval)).sum /
        (lastN 150 (bars.map Weinstein.cval)).length := by
    unfold Weinstein.calculate30WeekMA
    rw [if_neg (by omega)]
    dsimp only
    rw [lastN_map]
    have hl : (lastN 150 bars).length = (lastN 150 (bars.map Weinstein.cval)).length := by
      rw [lastN_length, lastN_length, hMlen]
    rw [hl]
  have hma_pos : 0 < Weinstein.calculate30WeekMA bars := by
    rw [hma]
    exact div_pos hsumpos hlenpos
  have hma_lt : Weinstein.calculate30WeekMA bars < Weinstein.cval (endD bars dRaw) := by
    rw [hma, div_lt_iff₀ hlenpos]
    calc (lastN 150 (bars.map Weinstein.cval)).sum
        < (lastN 150 (bars.map Weinstein.cval)).length *
            endD (lastN 150 (bars.map Weinstein.cval)) 0 := hsumlt
      _ = Weinstein.cval (endD bars dRaw) *
            (lastN 150 (bars.map Weinstein.cval)).length := by rw [hLlast, hpM]; ring
  have hpv : 0 < (Weinstein.cval (endD bars dRaw) - Weinstein.calculate30WeekMA bars) /
      Weinstein.calculate30WeekMA bars * 100 := by
    have := div_pos (sub_pos.mpr hma_lt) hma_pos
    positivity
  simp only [Weinstein.analyzeStage, hfilter, hisE, hallt, Bool.false_eq_true, if_false]
  rw [if_neg (by omega : ¬ bars.length < 5)]
  simp only [if_pos hma_pos]
  simp only [Weinstein.determineStage]
  rw [if_pos ⟨hpv, htrend, hup⟩]

/-- A synthetic up-day bar with close `c`: open just below the close, no
timestamp. -/
def c4Bar (c : ℚ) : RawBar := ⟨some (c - 1/2000), some c, some c, some c, some 0, none⟩

/-- 30 bars whose closes rise by 0.001 per bar: strictly increasing, all
up-days, but the 30-bar trend is only 0.029%. -/
def c4Series : List RawBar := [c4Bar 100, c4Bar (100 + 1/1000), c4Bar (100 + 2/1000), c4Bar (100 + 3/1000), c4Bar (100 + 4/1000), c4Bar (100 + 5/1000), c4Bar (100 + 6/1000), c4Bar (100 + 7/1000), c4Bar (100 + 8/1000), c4Bar (100 + 9/1000), c4Bar (100 + 10/1000), c4Bar (100 + 11/1000), c4Bar (100 + 12/1000), c4Bar (100 + 13/1000), c4Bar (100 + 14/1000), c4Bar (100 + 15/1000), c4Bar (100 + 16/1000), c4Bar (100 + 17/1000), c4Bar (100 + 18/1000), c4Bar (100 + 19/1000), c4Bar (100 + 20/1000), c4Bar (100 + 21/1000), c4Bar (100 + 22/1000), c4Bar (100 + 23/1000), c4Bar (100 + 24/1000), c4Bar (100 + 25/1000), c4Bar (100 + 26/1000), c4Bar (100 + 27/1000), c4Bar (100 + 28/1000), c4Bar (100 + 29/1000)]

/-- 30 bars whose closes rise by 2 per bar: the trailing trend is 58%. -/
def d4Series : List RawBar := [c4Bar 100, c4Bar (100 + 2), c4Bar (100 + 4), c4Bar (100 + 6), c4Bar (100 + 8), c4Bar (100 + 10), c4Bar (100 + 12), c4Bar (100 + 14), c4Bar (100 + 16), c4Bar (100 + 18), c4Bar (100 + 20), c4Bar (100 + 22), c4Bar (100 + 24), c4Bar (100 + 26), c4Bar (100 + 28), c4Bar (100 + 30), c4Bar (100 + 32), c4Bar (100 + 34), c4Bar (100 + 36), c4Bar (100 + 38), c4Bar (100 + 40), c4Bar (100 + 42), c4Bar (100 + 44), c4Bar (100 + 46), c4Bar (100 + 48), c4Bar (100 + 50), c4Bar (100 + 52), c4Bar (100 + 54), c4Bar (100 + 56), c4Bar (100 + 58)]

/-- C4 counterexample: a strictly increasing 30-bar series of up-days (no
down-days at all) whose closes climb too slowly (total gain 0.029% < 2%)
is classified Stage 1, not Stage 2, at the last close. -/
theorem C4_counterexample :
    30 ≤ c4Series.length ∧
      (∀ b ∈ c4Series, b.t = none) ∧
      (∀ b ∈ c4Series, ∃ q : ℚ, b.c = some q ∧ 0 < q) ∧
      (c4Series.map Weinstein.cval).Chain' (· < ·) ∧
      ((lastN 30 c4Series).filter Weinstein.downDay).length = 0 ∧
      ((lastN 30 c4Series).filter Weinstein.upDay).length = 30 ∧
      (Weinstein.analyzeStage (Weinstein.cval (endD c4Series dRaw)) c4Series).stage = 1 := by
  refine ⟨by decide, by decide, ?_, ?_, ?_, ?_, ?_⟩
  · norm_num [c4Series, c4Bar]
  · norm_num [c4Series, c4Bar, Weinstein.cval]
  · norm_num [c4Series, c4Bar, Weinstein.downDay, lastN]
  · norm_num [c4Series, c4Bar, Weinstein.upDay, lastN]
  · norm_num [Weinstein.analyzeStage, Weinstein.wvalid, Weinstein.cval,
      Weinstein.calculate30WeekMA, Weinstein.calculateVolatilitySq, Weinstein.returnsOf,
      Weinstein.analyzeTrend, Weinstein.getTrendStrength, Weinstein.determineStage,
      Weinstein.maxHigh, Weinstein.getStageName, Weinstein.upDay, Weinstein.downDay,
      lastN, stableSortBy, maxList, endD, c4Series, c4Bar]
    decide

/-- C4 witness: the amended theorem applied to a 30-bar strictly
increasing series that does satisfy the trend and up-day conditions. -/
theorem C4_stage2_witness :
    (Weinstein.analyzeStage (Weinstein.cval (endD d4Series dRaw)) d4Series).stage = 2 := by
  apply C4_stage2 d4Series
  · decide
  · decide
  · norm_num [d4Series, c4Bar]
  · norm_num [d4Series, c4Bar, Weinstein.cval]
  · norm_num [d4Series, c4Bar, Weinstein.analyzeTrend, Weinstein.cval, lastN, endD]
  · norm_num [d4Series, c4Bar, Weinstein.upDay, Weinstein.downDay, lastN]
